import Mathlib

/-!
Verification development for the `mail_syncer` repository.

The Python sources are shallowly embedded:

* `src/dynamodb_state.py` — the DynamoDB-backed state store is modelled as an
  association list from `(PK, SK)` keys to attribute maps.  `put_item` with a
  `ConditionExpression` of `attribute_not_exists(SK)` is modelled as a
  conditional insert, unconditional `put_item` as replace, `delete_item` as
  removal.  Timestamps (`_now_epoch`) are lifted to explicit parameters; they
  never influence control flow.
* `src/gmail_imap.py` — `_parse_uid_list` and the search entry points are
  embedded over a model of `imaplib` response payloads (lists of bytes / str /
  other parts).  Python `bytes.decode("ascii", errors="ignore")`, `str.split()`,
  `str.strip()` and `int(...)` are modelled explicitly (ASCII digits; CPython
  also accepts non-ASCII unicode digits, which no claim here depends on).
* `src/sync_engine.py` — `_run_route` and `run_once` are embedded as pure
  functions over the store model plus an environment describing the outcome of
  every external (IMAP / OAuth) operation.  Each `_with_retry`-wrapped call is
  represented by its post-retry outcome in the environment; `_with_retry`
  itself is embedded separately (attempt-indexed outcomes).  Log emission,
  `run_id` generation and wall-clock readings are elided: they do not affect
  any value or store mutation.  The message-fingerprint helpers
  (`rfc822_sha256`, `extract_message_id`) enter the route runner as opaque
  functions of the raw message bytes.

All observable effects of a cycle (store mutations, destination appends,
folder creation, client construction) are recorded in an event trace.
State-store operations are modelled as succeeding: a `DynamoStateError`
raised by the underlying AWS client is an infrastructure failure outside the
model (the claims treated here either concern a functioning store or, as in
the fail-safe gate, model the probe's outcome explicitly).
-/

deriving instance DecidableEq for Except

namespace MailSync

/-! ### Python exception model

The exception classes that appear in the repository.  Subclass relations in
the source: `GmailImapError`, `OutlookImapError`, `DynamoStateError` (hence
`DynamoUnavailableError`) all derive from `RuntimeError`; `TimeoutError`
derives from `OSError`; `ConfigError` derives from `ValueError`. -/

inductive PyExc where
  | gmailImapError (msg : String)
  | outlookImapError (msg : String)
  | osError (msg : String)
  | timeoutError (msg : String)
  | runtimeError (msg : String)
  | dynamoUnavailableError (msg : String)
  | dynamoStateError (msg : String)
  | valueError (msg : String)
  | otherError (msg : String)
deriving DecidableEq, Repr

/-- Python `str(exc)`: the message carried by the exception. -/
def py_str_of_exc : PyExc → String
  | .gmailImapError m => m
  | .outlookImapError m => m
  | .osError m => m
  | .timeoutError m => m
  | .runtimeError m => m
  | .dynamoUnavailableError m => m
  | .dynamoStateError m => m
  | .valueError m => m
  | .otherError m => m

/-! ### DynamoDB attribute values and table model (src/dynamodb_state.py)

An item is an attribute map (`_s` strings and `_n` numbers); the table is an
association list keyed by `(PK, SK)`.  `_n` stores `str(int(v))` and `_get_n`
parses it back with `int(...)`, an identity round trip, so numeric attributes
are kept as `Int` directly. -/

inductive AttrVal where
  | S (s : String)
  | N (n : Int)
deriving DecidableEq, Repr

abbrev Item := List (String × AttrVal)

abbrev StoreKey := String × String

abbrev Store := List (StoreKey × Item)

/-- `_get_s`: read a string attribute, `None` when absent or not a string. -/
def getS (item : Item) (key : String) : Option String :=
  match (item.find? (fun e => e.1 == key)).map (fun e => e.2) with
  | some (AttrVal.S s) => some s
  | _ => none

/-- `_get_n`: read a numeric attribute, `None` when absent or not a number. -/
def getN (item : Item) (key : String) : Option Int :=
  match (item.find? (fun e => e.1 == key)).map (fun e => e.2) with
  | some (AttrVal.N n) => some n
  | _ => none

/-- `get_item`: the item stored under a key, if any. -/
def getItem (store : Store) (k : StoreKey) : Option Item :=
  (store.find? (fun e => e.1 == k)).map (fun e => e.2)

/-- Unconditional `put_item`: replace whatever is stored under the key. -/
def putItem (store : Store) (k : StoreKey) (item : Item) : Store :=
  (k, item) :: store.filter (fun e => !(e.1 == k))

/-- `delete_item`: unconditional removal. -/
def deleteItem (store : Store) (k : StoreKey) : Store :=
  store.filter (fun e => !(e.1 == k))

/-- `DynamoStateStore.route_pk`. -/
def route_pk (gmail_email outlook_email folder : String) : String :=
  "ROUTE#" ++ gmail_email ++ "#DEST#" ++ outlook_email ++ "#FOLDER#" ++ folder

/-- `DynamoStateStore.uid_sk`. -/
def uid_sk (uidvalidity gmail_uid : Int) : String :=
  "UID#" ++ toString uidvalidity ++ "#" ++ toString gmail_uid

/-- `DynamoStateStore.fail_sk`. -/
def fail_sk (uidvalidity gmail_uid : Int) : String :=
  "FAIL#" ++ toString uidvalidity ++ "#" ++ toString gmail_uid

structure Watermark where
  uidvalidity : Option Int
  last_uid : Int
deriving DecidableEq, Repr

/-- `DynamoStateStore.get_watermark`: missing record or missing attributes
read as `uidvalidity=None, last_uid=0` (Python `_get_n(...) or 0`). -/
def get_watermark (store : Store) (pk : String) : Watermark :=
  let item := (getItem store (pk, "WATERMARK")).getD []
  { uidvalidity := getN item ("uidvalidity")
    last_uid := (getN item ("last_uid")).getD 0 }

/-- `DynamoStateStore.set_watermark`: unconditional write. -/
def set_watermark (store : Store) (pk : String) (uidvalidity last_uid now : Int) :
    Store :=
  putItem store (pk, "WATERMARK")
    [("uidvalidity", AttrVal.N uidvalidity),
     ("last_uid", AttrVal.N last_uid),
     ("updated_at", AttrVal.N now)]

/-- `DynamoStateStore.uid_record_exists` (`bool(item)` on the fetched item). -/
def uid_record_exists (store : Store) (pk : String) (uidvalidity gmail_uid : Int) :
    Bool :=
  (getItem store (pk, uid_sk uidvalidity gmail_uid)).isSome

/-- `DynamoStateStore.claim_uid_copy`: conditional `put_item` on
`attribute_not_exists(SK)`; a conditional failure returns `False`, success
writes a PENDING record and returns `True`. -/
def claim_uid_copy (store : Store) (pk : String) (uidvalidity gmail_uid now : Int) :
    Bool × Store :=
  let sk := uid_sk uidvalidity gmail_uid
  match getItem store (pk, sk) with
  | some _ => (false, store)
  | none =>
      (true, putItem store (pk, sk)
        [("status", AttrVal.S ("PENDING")),
         ("created_at", AttrVal.N now),
         ("updated_at", AttrVal.N now)])

/-- `DynamoStateStore.finalize_uid_copy`: unconditional write of a DONE record;
the `message_id_header` attribute is only stored when the value is truthy
(neither `None` nor the empty string). -/
def finalize_uid_copy (store : Store) (pk : String) (uidvalidity gmail_uid : Int)
    (message_id_header : Option String) (rfc822_sha256 : String)
    (ttl_days now : Int) : Store :=
  let sk := uid_sk uidvalidity gmail_uid
  let ttl := now + ttl_days * 86400
  let base : Item :=
    [("status", AttrVal.S ("DONE")),
     ("copied_at", AttrVal.N now),
     ("updated_at", AttrVal.N now),
     ("rfc822_sha256", AttrVal.S rfc822_sha256),
     ("ttl", AttrVal.N ttl)]
  let item :=
    match message_id_header with
    | some mid => if mid = "" then base else base ++ [("message_id_header", AttrVal.S mid)]
    | none => base
  putItem store (pk, sk) item

/-- `DynamoStateStore.abandon_pending_uid`: unconditional delete. -/
def abandon_pending_uid (store : Store) (pk : String) (uidvalidity gmail_uid : Int) :
    Store :=
  deleteItem store (pk, uid_sk uidvalidity gmail_uid)

/-- `DynamoStateStore.record_failure`: read-then-write, incrementing
`retry_count` and truncating the message to 1024 characters. -/
def record_failure (store : Store) (pk : String) (uidvalidity gmail_uid : Int)
    (error_message : String) (ttl_days now : Int) : Store :=
  let sk := fail_sk uidvalidity gmail_uid
  let ttl := now + ttl_days * 86400
  let existing := (getItem store (pk, sk)).getD []
  let retry_count := (getN existing ("retry_count")).getD 0 + 1
  putItem store (pk, sk)
    [("last_error", AttrVal.S (error_message.take 1024)),
     ("retry_count", AttrVal.N retry_count),
     ("updated_at", AttrVal.N now),
     ("ttl", AttrVal.N ttl)]

/-- `DynamoStateStore._query_uid_items`: every item under the route partition
whose sort key begins with `"UID#"` (pagination exhausts all pages, so the
model returns them all at once). -/
def query_uid_items (store : Store) (pk : String) : List Item :=
  (store.filter (fun e =>
    e.1.1 == pk && List.isPrefixOf ("UID#".toList) e.1.2.toList)).map
    (fun e => e.2)

/-- One iteration of the scan in `payload_already_copied`: DONE records match
on equal content hash, or — when a truthy `message_id_header` was supplied —
on equal stored `message_id_header` (both guarded by Python truthiness). -/
def item_matches_payload (item : Item) (message_id_header : Option String)
    (sha : String) : Bool :=
  if ((getS item ("status")).getD ("")) ≠ "DONE" then false
  else
    (match getS item ("rfc822_sha256") with
     | some s => !(s = "") && s == sha
     | none => false)
    ||
    (match message_id_header with
     | some mid =>
         if mid = "" then false
         else
           match getS item ("message_id_header") with
           | some m => !(m = "") && m == mid
           | none => false
     | none => false)

/-- `DynamoStateStore.payload_already_copied`. -/
def payload_already_copied (store : Store) (pk : String)
    (message_id_header : Option String) (sha : String) : Bool :=
  (query_uid_items store pk).any (fun item =>
    item_matches_payload item message_id_header sha)

/-- `DynamoStateStore.assert_available`: the `describe_table` outcome is either
an exception or an optional `TableStatus`; any exception, a missing status or
a falsy (empty) status raises `DynamoUnavailableError`. -/
def assert_available (table_name : String)
    (describe_table : Except PyExc (Option String)) : Except PyExc Unit :=
  match describe_table with
  | .error exc =>
      .error (.dynamoUnavailableError
        ("DynamoDB unavailable for table " ++ table_name ++ ": " ++ py_str_of_exc exc))
  | .ok status =>
      match status with
      | none =>
          .error (.dynamoUnavailableError
            ("DynamoDB describe_table returned no status for " ++ table_name))
      | some s =>
          if s = "" then
            .error (.dynamoUnavailableError
              ("DynamoDB describe_table returned no status for " ++ table_name))
          else .ok ()

/-! #### Elementary store lemmas -/

theorem getItem_putItem_self (store : Store) (k : StoreKey) (item : Item) :
    getItem (putItem store k item) k = some item := by
  simp [getItem, putItem, List.find?]

theorem getItem_deleteItem_self (store : Store) (k : StoreKey) :
    getItem (deleteItem store k) k = none := by
  simp only [getItem, deleteItem]
  rw [List.find?_eq_none.mpr]
  · rfl
  · intro e he
    have := (List.mem_filter.mp he).2
    simp only [Bool.not_eq_true', beq_eq_false_iff_ne, ne_eq] at this
    simp [this]

/-- Claim C1 (Claim/finalize laws): starting from any store state with no
record for `(pk, uidvalidity, uid)`, `claim_uid_copy` returns `True`; after
`finalize_uid_copy` on the same key every subsequent `claim_uid_copy` returns
`False` (and leaves the store unchanged, so all later claims keep returning
`False`); after `abandon_pending_uid` instead, the next `claim_uid_copy`
returns `True` again. -/
theorem claim_finalize_abandon_laws (store : Store) (pk : String)
    (v u now1 now2 now3 ttl : Int) (mid : Option String) (sha : String)
    (hfree : getItem store (pk, uid_sk v u) = none) :
    (claim_uid_copy store pk v u now1).1 = true
    ∧ (claim_uid_copy
        (finalize_uid_copy (claim_uid_copy store pk v u now1).2 pk v u mid sha ttl now2)
        pk v u now3
       = (false,
          finalize_uid_copy (claim_uid_copy store pk v u now1).2 pk v u mid sha ttl now2))
    ∧ (claim_uid_copy
        (abandon_pending_uid (claim_uid_copy store pk v u now1).2 pk v u)
        pk v u now3).1 = true := by
  have hclaim : claim_uid_copy store pk v u now1 =
      (true, putItem store (pk, uid_sk v u)
        [("status", AttrVal.S ("PENDING")), ("created_at", AttrVal.N now1),
         ("updated_at", AttrVal.N now1)]) := by
    simp [claim_uid_copy, hfree]
  refine ⟨by simp [hclaim], ?_, ?_⟩
  · rw [hclaim]
    simp only [finalize_uid_copy]
    simp [claim_uid_copy, getItem_putItem_self]
  · rw [hclaim]
    simp only [abandon_pending_uid]
    simp [claim_uid_copy, getItem_deleteItem_self]

/-- Witness for `claim_finalize_abandon_laws` at a concrete empty store. -/
theorem claim_finalize_abandon_laws_witness :
    (getItem ([] : Store) ("R", uid_sk 7 3) = none)
    ∧ ((claim_uid_copy ([] : Store) ("R") 7 3 10).1 = true
       ∧ (claim_uid_copy
            (finalize_uid_copy (claim_uid_copy ([] : Store) ("R") 7 3 10).2 ("R") 7 3
              (some ("m")) ("aa") 365 11)
            ("R") 7 3 12
          = (false,
             finalize_uid_copy (claim_uid_copy ([] : Store) ("R") 7 3 10).2 ("R") 7 3
               (some ("m")) ("aa") 365 11))
       ∧ (claim_uid_copy
            (abandon_pending_uid (claim_uid_copy ([] : Store) ("R") 7 3 10).2 ("R") 7 3)
            ("R") 7 3 12).1 = true) :=
  ⟨by decide, claim_finalize_abandon_laws [] ("R") 7 3 10 11 12 365 (some ("m")) ("aa") (by decide)⟩

/-! ### Gmail UID search parsing (src/gmail_imap.py)

`imaplib` hands `_parse_uid_list` a list of response parts; each part may be a
`bytes` payload, a `str`, or something else entirely. -/

inductive ImapPart where
  | bytesPart (bs : List Nat)
  | strPart (s : String)
  | otherPart
deriving DecidableEq, Repr

/-- Python `bytes.decode("ascii", errors="ignore")`: bytes ≥ 0x80 are dropped,
the rest map to their ASCII characters. -/
def decode_ascii_ignore (bs : List Nat) : String :=
  String.mk ((bs.filter (fun b => b < 128)).map Char.ofNat)

/-- Python `str` whitespace (the ASCII portion relevant to IMAP payloads). -/
def is_py_space (c : Char) : Bool :=
  c = ' ' || c = '\t' || c = '\n' || c = '\x0d' || c = '\x0b' || c = '\x0c'

/-- Python `str.split()` with no separator: split on whitespace runs, no empty
tokens. -/
def py_split_ws (s : String) : List String :=
  ((s.toList.splitOnP is_py_space).filter (fun cs => !cs.isEmpty)).map
    (fun cs => String.mk cs)

/-- Python `str.strip()`. -/
def py_strip (s : String) : String :=
  String.mk
    (((s.toList.dropWhile is_py_space).reverse.dropWhile is_py_space).reverse)

/-- Digit run of a Python integer literal after the first digit: single
underscores are permitted between digits. -/
def py_int_rest : List Char → Bool
  | [] => true
  | '_' :: [] => false
  | '_' :: c :: rest => c.isDigit && py_int_rest rest
  | c :: rest => c.isDigit && py_int_rest rest

/-- Nonempty digit run (with optional internal underscores). -/
def py_int_digits : List Char → Bool
  | [] => false
  | c :: rest => c.isDigit && py_int_rest rest

/-- Numeric value of a digit run, ignoring underscores. -/
def digits_val (cs : List Char) : Nat :=
  cs.foldl (fun acc c => if c = '_' then acc else acc * 10 + (c.toNat - 48)) 0

/-- Python `int(token)` on a whitespace-free token: optional sign followed by
ASCII digits (with legal underscores); anything else raises `ValueError`.
(CPython additionally accepts non-ASCII unicode digits; no claim depends on
those.) -/
def py_int (s : String) : Option Int :=
  match s.toList with
  | '+' :: rest => if py_int_digits rest then some (digits_val rest : Int) else none
  | '-' :: rest => if py_int_digits rest then some (-(digits_val rest : Int)) else none
  | cs => if py_int_digits cs then some (digits_val cs : Int) else none

/-- Python `sorted(set(l))`: strictly ascending enumeration of the distinct
values. -/
def py_sorted_set (l : List Int) : List Int :=
  l.dedup.insertionSort (fun a b => a ≤ b)

/-- The `joined` list built by `_parse_uid_list`: bytes parts are
ASCII-decoded, str parts kept, all other parts silently discarded. -/
def imap_joined (data : List ImapPart) : List String :=
  data.filterMap (fun p =>
    match p with
    | .bytesPart bs => some (decode_ascii_ignore bs)
    | .strPart s => some s
    | .otherPart => none)

/-- The whitespace-separated tokens scanned by `_parse_uid_list`. -/
def py_tokens (data : List ImapPart) : List String :=
  py_split_ws (py_strip (String.intercalate (" ") (imap_joined data)))

/-- `_parse_uid_list`: join the textual parts, split into tokens, keep the
tokens that parse as integers, and return `sorted(set(uids))`. -/
def parse_uid_list (data : List ImapPart) : List Int :=
  if data.isEmpty then []
  else
    let joined := imap_joined data
    if joined.isEmpty then []
    else
      let raw := py_strip (String.intercalate (" ") joined)
      if raw = "" then []
      else py_sorted_set ((py_split_ws raw).filterMap py_int)

/-- `int(token)` with its `ValueError` made explicit. -/
def py_int_exc (s : String) : Except PyExc Int :=
  match py_int s with
  | some n => .ok n
  | none => .error (.valueError ("invalid literal for int with base 10: " ++ s))

def is_value_error : PyExc → Bool
  | .valueError _ => true
  | _ => false

/-- The token loop of `_parse_uid_list` with exception propagation made
explicit: `except ValueError: continue` swallows exactly the `ValueError`
raised by `int(...)`; any other exception would propagate. -/
def parse_tokens_loop : List String → Except PyExc (List Int)
  | [] => .ok []
  | t :: rest =>
      match py_int_exc t with
      | .ok n => (parse_tokens_loop rest).map (fun l => n :: l)
      | .error e =>
          if is_value_error e then parse_tokens_loop rest else .error e

/-- `_parse_uid_list` in exception-passing style. -/
def parse_uid_list_exc (data : List ImapPart) : Except PyExc (List Int) :=
  if data.isEmpty then .ok []
  else
    let joined := imap_joined data
    if joined.isEmpty then .ok []
    else
      let raw := py_strip (String.intercalate (" ") joined)
      if raw = "" then .ok []
      else (parse_tokens_loop (py_split_ws raw)).map py_sorted_set

/-- `GmailImapClient.search_uids_after`: selects INBOX, issues
`UID SEARCH UID <max(last_uid+1,1)>:*` (the bound only shapes the query
string sent to the server), checks the response status and parses the
payload. -/
def search_uids_after (select_ok : Bool) (last_uid : Int)
    (typ : String) (data : List ImapPart) : Except PyExc (List Int) :=
  if !select_ok then .error (.gmailImapError ("Gmail INBOX SELECT failed"))
  else if typ ≠ "OK" then
    .error (.gmailImapError ("Gmail UID SEARCH failed: " ++ typ))
  else .ok (parse_uid_list data)

/-- `GmailImapClient.search_uids_since`. -/
def search_uids_since (select_ok : Bool) (typ : String) (data : List ImapPart) :
    Except PyExc (List Int) :=
  if !select_ok then .error (.gmailImapError ("Gmail INBOX SELECT failed"))
  else if typ ≠ "OK" then
    .error (.gmailImapError ("Gmail UID SEARCH SINCE failed: " ++ typ))
  else .ok (parse_uid_list data)

/-! #### Parsing lemmas and the search contract -/

theorem py_sorted_set_sorted_lt (l : List Int) :
    (py_sorted_set l).Sorted (fun a b => a < b) := by
  have hle : (py_sorted_set l).Sorted (fun a b => a ≤ b) :=
    List.sorted_insertionSort _ _
  have hnd : (py_sorted_set l).Nodup :=
    ((List.perm_insertionSort _ _).nodup_iff).mpr (List.nodup_dedup l)
  exact List.Sorted.lt_of_le hle hnd

theorem py_sorted_set_mem (l : List Int) (x : Int) :
    x ∈ py_sorted_set l ↔ x ∈ l := by
  simp [py_sorted_set]

theorem parse_uid_list_eq (data : List ImapPart) :
    parse_uid_list data = py_sorted_set ((py_tokens data).filterMap py_int) := by
  match data with
  | [] => decide
  | d :: ds =>
    unfold parse_uid_list py_tokens
    simp only [List.isEmpty_cons, Bool.false_eq_true, if_false]
    by_cases h2 : (imap_joined (d :: ds)).isEmpty
    · have hj : imap_joined (d :: ds) = [] := List.isEmpty_iff.mp h2
      rw [hj]
      simp only [List.isEmpty_nil, if_true]
      decide
    · simp only [h2, Bool.false_eq_true, if_false]
      by_cases h3 : py_strip (String.intercalate (" ") (imap_joined (d :: ds))) = ""
      · rw [h3]
        simp only [if_true]
        decide
      · simp only [h3, if_false]

theorem parse_tokens_loop_eq (ts : List String) :
    parse_tokens_loop ts = Except.ok (ts.filterMap py_int) := by
  induction ts with
  | nil => rfl
  | cons t rest ih =>
      unfold parse_tokens_loop py_int_exc
      cases h : py_int t with
      | some n => simp [h, ih, Except.map]
      | none => simp [h, ih, is_value_error]

/-- Claim C10 (UID-list parsing is total): `_parse_uid_list` never raises —
the exception-passing embedding always returns `ok`, with the same value as
the pure embedding; and whenever no token of the response parses as an
integer (in particular for an empty or entirely malformed response) the
result is the empty list. -/
theorem parse_uid_list_never_raises (data : List ImapPart) :
    parse_uid_list_exc data = Except.ok (parse_uid_list data)
    ∧ ((py_tokens data).filterMap py_int = [] → parse_uid_list data = []) := by
  constructor
  · match data with
    | [] => rfl
    | d :: ds =>
      unfold parse_uid_list_exc parse_uid_list
      simp only [List.isEmpty_cons, Bool.false_eq_true, if_false]
      by_cases h2 : (imap_joined (d :: ds)).isEmpty
      · simp [h2]
      · simp only [h2, Bool.false_eq_true, if_false]
        by_cases h3 : py_strip (String.intercalate (" ") (imap_joined (d :: ds))) = ""
        · simp [h3]
        · simp only [h3, if_false, parse_tokens_loop_eq, Except.map]
  · intro h
    rw [parse_uid_list_eq, h]
    rfl

/-- Witness for `parse_uid_list_never_raises`: a payload made of one garbage
bytes part and one non-text part has no integer token and parses to `[]`. -/
theorem parse_uid_list_never_raises_witness :
    (py_tokens [ImapPart.bytesPart [97, 98, 99], ImapPart.otherPart]).filterMap py_int = []
    ∧ parse_uid_list [ImapPart.bytesPart [97, 98, 99], ImapPart.otherPart] = [] :=
  ⟨by decide,
   (parse_uid_list_never_raises [ImapPart.bytesPart [97, 98, 99], ImapPart.otherPart]).2
     (by decide)⟩

/-- Counterexample to claim C8 as stated: with prior watermark `last_uid =
100`, a search response whose sole token is `"5"` makes
`search_uids_after` return `[5]`, which is not strictly greater than 100 —
the client never filters parsed tokens against `last_uid`. -/
theorem search_uids_after_counterexample :
    search_uids_after true 100 ("OK") [ImapPart.bytesPart [53]] = Except.ok [5]
    ∧ (5 : Int) ∈ ([5] : List Int)
    ∧ ¬ ((100 : Int) < 5) := by
  exact ⟨by decide, by decide, by decide⟩

/-- Claim C8, amended: `search_uids_after` returns a strictly ascending,
duplicate-free list whose members are exactly the integer tokens of the
response; every member exceeds `last_uid` only under the additional
assumption that every integer token of the response does. -/
theorem search_uids_after_sorted (select_ok : Bool) (last_uid : Int)
    (typ : String) (data : List ImapPart) (l : List Int)
    (h : search_uids_after select_ok last_uid typ data = Except.ok l) :
    l.Sorted (fun a b => a < b) ∧ l.Nodup
    ∧ (∀ u, u ∈ l ↔ u ∈ (py_tokens data).filterMap py_int)
    ∧ ((∀ u ∈ (py_tokens data).filterMap py_int, last_uid < u) →
        ∀ u ∈ l, last_uid < u) := by
  have hl : l = parse_uid_list data := by
    unfold search_uids_after at h
    by_cases hs : select_ok
    · simp only [hs, Bool.not_true, Bool.false_eq_true, if_false] at h
      by_cases ht : typ = "OK"
      · simp only [ht, ne_eq, not_true_eq_false, if_false] at h
        exact (Except.ok.injEq _ _).mp h.symm
      · simp [ht] at h
    · simp [hs] at h
  subst hl
  rw [parse_uid_list_eq]
  refine ⟨py_sorted_set_sorted_lt _, ?_, ?_, ?_⟩
  · exact ((List.perm_insertionSort _ _).nodup_iff).mpr (List.nodup_dedup _)
  · intro u
    exact py_sorted_set_mem _ u
  · intro hall u hu
    exact hall u ((py_sorted_set_mem _ u).mp hu)

/-- Witness for `search_uids_after_sorted` on a duplicate, unsorted
response. -/
theorem search_uids_after_sorted_witness :
    (search_uids_after true 3 ("OK") [ImapPart.strPart ("10 7 10")] = Except.ok [7, 10])
    ∧ (List.Sorted (fun a b => a < b) ([7, 10] : List Int)
       ∧ ([7, 10] : List Int).Nodup
       ∧ (∀ u, u ∈ ([7, 10] : List Int) ↔
            u ∈ (py_tokens [ImapPart.strPart ("10 7 10")]).filterMap py_int)
       ∧ ((∀ u ∈ (py_tokens [ImapPart.strPart ("10 7 10")]).filterMap py_int, (3 : Int) < u) →
            ∀ u ∈ ([7, 10] : List Int), (3 : Int) < u)) :=
  ⟨by decide,
   search_uids_after_sorted true 3 ("OK") [ImapPart.strPart ("10 7 10")] [7, 10] (by decide)⟩

/-! ### The retry wrapper (src/sync_engine.py, `SyncEngine._with_retry`)

The wrapped operation is modelled as a function from the (1-based) attempt
number to that attempt's outcome.  The wrapper returns the final outcome
together with the number of attempts actually made.  The inter-attempt sleeps
(`delay`, doubling after each caught failure) have no observable effect in
the model and are elided. -/

/-- The exception classes named in `_with_retry`'s `except` clause:
`GmailImapError`, `OutlookImapError`, `OSError`, `TimeoutError`,
`RuntimeError` — together with every subclass present in the repository
(`TimeoutError ⊂ OSError`; the Dynamo state errors subclass
`RuntimeError`). -/
def caught_by_retry : PyExc → Bool
  | .gmailImapError _ => true
  | .outlookImapError _ => true
  | .osError _ => true
  | .timeoutError _ => true
  | .runtimeError _ => true
  | .dynamoUnavailableError _ => true
  | .dynamoStateError _ => true
  | .valueError _ => false
  | .otherError _ => false

/-- The `for attempt in range(1, max_attempts + 1)` loop: `attempt` is the
current attempt number, `remaining` the number of later attempts still
permitted.  A caught exception with no attempts left breaks out of the loop
and re-raises the last caught error; an uncaught exception propagates at
once.  Either way the second component counts the attempts made. -/
def with_retry_go {α : Type} (op : Nat → Except PyExc α) :
    Nat → Nat → Except PyExc α × Nat
  | attempt, 0 =>
      match op attempt with
      | .ok a => (.ok a, attempt)
      | .error e => (.error e, attempt)
  | attempt, remaining + 1 =>
      match op attempt with
      | .ok a => (.ok a, attempt)
      | .error e =>
          if caught_by_retry e then with_retry_go op (attempt + 1) remaining
          else (.error e, attempt)

/-- `SyncEngine._with_retry` with `max_attempts = max(1, imap_max_retries)`. -/
def with_retry {α : Type} (imap_max_retries : Int) (op : Nat → Except PyExc α) :
    Except PyExc α × Nat :=
  with_retry_go op 1 ((max 1 imap_max_retries).toNat - 1)

/-- Counterexample to claim C7 as stated: a bare `RuntimeError` is neither a
network I/O error, a timeout, nor one of the IMAP protocol-client error
types, yet with `imap_max_retries = 2` the wrapper makes a second attempt
instead of propagating it immediately. -/
theorem with_retry_counterexample :
    with_retry 2 (fun _ => (Except.error (PyExc.runtimeError ("boom")) : Except PyExc Unit))
      = (Except.error (PyExc.runtimeError ("boom")), 2)
    ∧ (2 : Nat) ≠ 1 := by
  constructor
  · rfl
  · decide

/-- Claim C7, amended: `_with_retry` catches and retries exactly the faults
matching `GmailImapError`, `OutlookImapError`, `OSError` (network I/O errors,
including `TimeoutError` timeouts) and `RuntimeError` together with its
subclasses; any other exception propagates immediately on the attempt that
raised it — whatever that attempt's number, and however many attempts remain;
and when every permitted attempt fails with a caught fault, the error of the
final attempt — the last caught one — is re-raised after
`max(1, imap_max_retries)` attempts. -/
theorem with_retry_classification {α : Type} (n : Int) (op : Nat → Except PyExc α)
    (e : PyExc) (k : Nat) :
    (∀ a : α, op 1 = Except.ok a → with_retry n op = (Except.ok a, 1))
    ∧ (1 ≤ k → k ≤ (max 1 n).toNat →
        (∀ i, 1 ≤ i → i < k →
          ∃ e', op i = Except.error e' ∧ caught_by_retry e' = true) →
        op k = Except.error e → caught_by_retry e = false →
        with_retry n op = (Except.error e, k))
    ∧ ((∀ i, 1 ≤ i → i ≤ (max 1 n).toNat → (op i).isOk = false
          ∧ ∀ e', op i = Except.error e' → caught_by_retry e' = true) →
        op ((max 1 n).toNat) = Except.error e →
        with_retry n op = (Except.error e, (max 1 n).toNat)) := by
  have key : ∀ (remaining attempt : Nat),
      (∀ i, attempt ≤ i → i ≤ attempt + remaining → (op i).isOk = false
        ∧ ∀ e', op i = Except.error e' → caught_by_retry e' = true) →
      op (attempt + remaining) = Except.error e →
      with_retry_go op attempt remaining = (Except.error e, attempt + remaining) := by
    intro remaining
    induction remaining with
    | zero =>
        intro attempt hall hlast
        simp only [Nat.add_zero] at hlast
        simp [with_retry_go, hlast]
    | succ r ih =>
        intro attempt hall hlast
        have h1 := hall attempt (le_refl _) (Nat.le_add_right _ _)
        cases hop : op attempt with
        | ok a =>
            have h1' := h1.1
            rw [hop] at h1'
            simp [Except.isOk, Except.toBool] at h1'
        | error e' =>
            have hc : caught_by_retry e' = true := h1.2 e' hop
            have : with_retry_go op attempt (r + 1) = with_retry_go op (attempt + 1) r := by
              simp [with_retry_go, hop, hc]
            rw [this, ih (attempt + 1)]
            · congr 1
              omega
            · intro i hi1 hi2
              exact hall i (by omega) (by omega)
            · have : attempt + 1 + r = attempt + (r + 1) := by omega
              rw [this]
              exact hlast
  have key2 : ∀ (remaining attempt : Nat), attempt ≤ k → k ≤ attempt + remaining →
      (∀ i, attempt ≤ i → i < k →
        ∃ e', op i = Except.error e' ∧ caught_by_retry e' = true) →
      op k = Except.error e → caught_by_retry e = false →
      with_retry_go op attempt remaining = (Except.error e, k) := by
    intro remaining
    induction remaining with
    | zero =>
        intro attempt h1 h2 hcaught hk hnc
        have hak : attempt = k := by omega
        subst hak
        simp [with_retry_go, hk]
    | succ r ih =>
        intro attempt h1 h2 hcaught hk hnc
        by_cases hak : attempt = k
        · subst hak
          simp [with_retry_go, hk, hnc]
        · have hlt : attempt < k := by omega
          obtain ⟨e', he', hc'⟩ := hcaught attempt (le_refl _) hlt
          have hstep : with_retry_go op attempt (r + 1) = with_retry_go op (attempt + 1) r := by
            simp [with_retry_go, he', hc']
          rw [hstep]
          exact ih (attempt + 1) (by omega) (by omega)
            (fun i hi1 hi2 => hcaught i (by omega) hi2) hk hnc
  refine ⟨?_, ?_, ?_⟩
  · intro a hok
    unfold with_retry
    cases hr : (max 1 n).toNat - 1 with
    | zero => simp [with_retry_go, hok]
    | succ r => simp [with_retry_go, hok]
  · intro hk1 hk2 hcaught hke hnc
    have hpos : 1 ≤ (max 1 n).toNat := by
      have : (1 : Int) ≤ max 1 n := le_max_left _ _
      omega
    unfold with_retry
    exact key2 ((max 1 n).toNat - 1) 1 hk1 (by omega)
      (fun i hi1 hi2 => hcaught i hi1 hi2) hke hnc
  · intro hall hlast
    have hpos : 1 ≤ (max 1 n).toNat := by
      have : (1 : Int) ≤ max 1 n := le_max_left _ _
      omega
    have hform : (max 1 n).toNat = 1 + ((max 1 n).toNat - 1) := by omega
    unfold with_retry
    rw [key ((max 1 n).toNat - 1) 1]
    · congr 1
      omega
    · intro i hi1 hi2
      exact hall i hi1 (by omega)
    · rw [← hform]
      exact hlast

/-- Witness for `with_retry_classification`: with three permitted attempts,
an operation that times out on attempt 1 (caught, retried) and raises a
`ValueError` on attempt 2 (outside the caught set) propagates the
`ValueError` immediately on attempt 2, with an attempt still remaining. -/
theorem with_retry_classification_witness :
    ((1 : Nat) ≤ 2)
    ∧ ((2 : Nat) ≤ (max 1 (3 : Int)).toNat)
    ∧ ((fun i => if i = 1 then (Except.error (PyExc.timeoutError ("t")) : Except PyExc Unit)
         else Except.error (PyExc.valueError ("v"))) 2
        = Except.error (PyExc.valueError ("v")))
    ∧ caught_by_retry (PyExc.valueError ("v")) = false
    ∧ with_retry 3 (fun i => if i = 1 then (Except.error (PyExc.timeoutError ("t")) : Except PyExc Unit)
        else Except.error (PyExc.valueError ("v")))
        = (Except.error (PyExc.valueError ("v")), 2) :=
  ⟨by decide, by decide, by decide, by decide,
   (with_retry_classification 3
     (fun i => if i = 1 then (Except.error (PyExc.timeoutError ("t")) : Except PyExc Unit)
       else Except.error (PyExc.valueError ("v")))
     (PyExc.valueError ("v")) 2).2.1
     (by decide) (by decide)
     (fun i hi1 hi2 => by
       have hi : i = 1 := by omega
       subst hi
       exact ⟨PyExc.timeoutError ("t"), rfl, rfl⟩)
     (by decide) (by decide)⟩

/-! ### The sync engine (src/sync_engine.py)

`_run_route` and `run_once` are embedded over the store model.  Every
`_with_retry`-wrapped external call is represented by its post-retry outcome
in a `RouteEnv` / `CycleEnv` record (the wrapper itself is `with_retry`
above).  Observable actions are recorded as events.  Log lines, `run_id`
generation, wall-clock reads and the client `close()` calls are elided: none
of them mutates the store or the destination mailbox. -/

structure RouteConfig where
  gmail_email : String
  gmail_client_id : String
  gmail_client_secret : String
  gmail_refresh_token : String
  outlook_email : String
  outlook_target_folder : String
  create_target_folder : Bool
deriving DecidableEq, Repr

/-- `RouteConfig.route_id`. -/
def RouteConfig.route_id (r : RouteConfig) : String :=
  "gmail=" ++ r.gmail_email ++ "|outlook=" ++ r.outlook_email
    ++ "|folder=" ++ r.outlook_target_folder

/-- The `AppConfig` fields consumed by the engine (`uidvalidity_resync_hours`
only shapes the wall-clock `since_date` sent to the server; hosts, ports and
credentials only parametrise client construction). -/
structure Config where
  dynamodb_table : String
  uidvalidity_resync_hours : Int
  uid_record_ttl_days : Int
  fail_record_ttl_days : Int
  imap_max_retries : Int
  routes : List RouteConfig

/-- Observable actions of a cycle. -/
inductive Ev where
  | assert_available_ev
  | ms_token_refresh_ev
  | outlook_client_constructed_ev
  | outlook_connect_ev
  | gmail_client_constructed_ev (route_id : String)
  | gmail_connect_ev
  | folder_create_ev (folder : String)
  | fetch_ev (uid : Int)
  | append_ev (folder : String) (uid : Int)
  | claim_ev (pk : String) (uidvalidity uid : Int) (result : Bool)
  | finalize_ev (pk : String) (uidvalidity uid : Int)
  | abandon_ev (pk : String) (uidvalidity uid : Int)
  | record_failure_ev (pk : String) (uidvalidity uid : Int)
  | set_watermark_ev (pk : String) (uidvalidity last_uid : Int)
deriving DecidableEq, Repr

/-- Post-retry outcomes of the external operations one route performs, plus
the message-fingerprint helpers as opaque functions of the raw bytes. -/
structure RouteEnv where
  gmail_token : Except PyExc String
  gmail_connect : Except PyExc Unit
  dest_select_ok : Bool
  dest_create_ok : Bool
  uidvalidity : Except PyExc Int
  search_since : Except PyExc (List Int)
  search_after : Int → Except PyExc (List Int)
  fetch : Int → Except PyExc (List Nat)
  append_result : Int → Except PyExc Unit
  message_id_of : List Nat → Option String
  sha256_of : List Nat → String
  now : Int

/-- `OutlookImapClient.ensure_folder`: SELECT read-only; when that fails and
creation is allowed, issue CREATE (an observable destination mutation) and
succeed or raise on its outcome; otherwise raise. -/
def ensure_folder (env : RouteEnv) (folder_name : String) (create_if_missing : Bool) :
    Except PyExc Unit × List Ev :=
  if env.dest_select_ok then (.ok (), [])
  else if !create_if_missing then
    (.error (.outlookImapError ("Outlook folder does not exist: " ++ folder_name)), [])
  else if env.dest_create_ok then (.ok (), [Ev.folder_create_ev folder_name])
  else
    (.error (.outlookImapError ("Outlook folder create failed for " ++ folder_name)),
     [Ev.folder_create_ev folder_name])

/-- The mutable per-route loop state of `_run_route`. -/
structure LoopState where
  store : Store
  copied : Nat
  skipped_duplicates : Nat
  failed : Nat
  processed_uids : List Int
  failed_uids : List Int
  trace : List Ev
deriving DecidableEq, Repr

structure RouteRunResult where
  route_id : String
  status : String
  copied : Nat
  skipped_duplicates : Nat
  failed : Nat
  detail : String
deriving DecidableEq, Repr

structure RouteOutcome where
  result : Except PyExc RouteRunResult
  store : Store
  trace : List Ev
deriving DecidableEq, Repr

/-- Python `min(list)` (callers guard non-emptiness). -/
def py_min_int : List Int → Int
  | [] => 0
  | h :: t => t.foldl min h

/-- Python `max(list)` (callers guard non-emptiness). -/
def py_max_int : List Int → Int
  | [] => 0
  | h :: t => t.foldl max h

/-- One iteration of the per-UID loop of `_run_route`, in source order:
record the UID as processed, fetch (a fetch failure propagates and aborts the
route), resync dedupe gate, dry-run branch, claim, append with
finalize-on-success or abandon/record-failure-on-failure. -/
def run_uid_step (cfg : Config) (env : RouteEnv) (route : RouteConfig) (pk : String)
    (uidv : Int) (changed dry_run : Bool) (st : LoopState) (uid : Int) :
    LoopState × Option PyExc :=
  let st0 := { st with processed_uids := st.processed_uids ++ [uid] }
  match env.fetch uid with
  | .error e => (st0, some e)
  | .ok raw =>
      let st1 := { st0 with trace := st0.trace ++ [Ev.fetch_ev uid] }
      let message_id := env.message_id_of raw
      let payload_hash := env.sha256_of raw
      if changed && payload_already_copied st1.store pk message_id payload_hash then
        ({ st1 with skipped_duplicates := st1.skipped_duplicates + 1 }, none)
      else if dry_run then
        if uid_record_exists st1.store pk uidv uid then
          ({ st1 with skipped_duplicates := st1.skipped_duplicates + 1 }, none)
        else (st1, none)
      else
        let claimed := claim_uid_copy st1.store pk uidv uid env.now
        let st2 := { st1 with
          store := claimed.2
          trace := st1.trace ++ [Ev.claim_ev pk uidv uid claimed.1] }
        if !claimed.1 then
          ({ st2 with skipped_duplicates := st2.skipped_duplicates + 1 }, none)
        else
          match env.append_result uid with
          | .ok _ =>
              let store3 := finalize_uid_copy st2.store pk uidv uid message_id
                payload_hash cfg.uid_record_ttl_days env.now
              ({ st2 with
                 store := store3
                 copied := st2.copied + 1
                 trace := st2.trace ++ [Ev.append_ev route.outlook_target_folder uid,
                   Ev.finalize_ev pk uidv uid] }, none)
          | .error exc =>
              let store3 := abandon_pending_uid st2.store pk uidv uid
              let store4 := record_failure store3 pk uidv uid (py_str_of_exc exc)
                cfg.fail_record_ttl_days env.now
              ({ st2 with
                 store := store4
                 failed := st2.failed + 1
                 failed_uids := st2.failed_uids ++ [uid]
                 trace := st2.trace ++ [Ev.append_ev route.outlook_target_folder uid,
                   Ev.abandon_ev pk uidv uid, Ev.record_failure_ev pk uidv uid] }, none)

/-- The `for uid in candidate_uids` loop of `_run_route`. -/
def run_uid_loop (cfg : Config) (env : RouteEnv) (route : RouteConfig) (pk : String)
    (uidv : Int) (changed dry_run : Bool) :
    List Int → LoopState → LoopState × Option PyExc
  | [], st => (st, none)
  | uid :: rest, st =>
      match run_uid_step cfg env route pk uidv changed dry_run st uid with
      | (st', none) => run_uid_loop cfg env route pk uidv changed dry_run rest st'
      | (st', some e) => (st', some e)

/-- The partition key `_run_route` computes for a route. -/
def route_pk_of (route : RouteConfig) : String :=
  route_pk route.gmail_email route.outlook_email route.outlook_target_folder

/-- The watermark advancement of `_run_route` (sync_engine.py lines 324-336):
`new_last_uid = watermark.last_uid`, overridden when any UID was processed by
`max(last_uid, min(failed_uids) - 1)` on failures, else
`max(last_uid, max(processed_uids))`. -/
def code_new_last_uid (w : Int) (processed failed : List Int) : Int :=
  if processed.isEmpty then w
  else if !failed.isEmpty then max w (py_min_int failed - 1)
  else max w (py_max_int processed)

/-- The trace `_run_route` has accumulated when the destination folder has
been ensured: client construction, connect, and any folder CREATE. -/
def route_pre_trace (env : RouteEnv) (route : RouteConfig) : List Ev :=
  [Ev.gmail_client_constructed_ev route.route_id, Ev.gmail_connect_ev]
    ++ (ensure_folder env route.outlook_target_folder route.create_target_folder).2

/-- The resync trigger of `_run_route` (sync_engine.py lines 206-209): a
stored uidvalidity that differs from the server's current one. -/
def uidvalidity_changed (wm : Watermark) (current_uidvalidity : Int) : Bool :=
  match wm.uidvalidity with
  | none => false
  | some v => decide (v ≠ current_uidvalidity)

/-- Search-strategy selection: `search_uids_since` (bounded resync window)
when the uidvalidity changed, `search_uids_after(last_uid)` otherwise. -/
def route_candidates (env : RouteEnv) (wm : Watermark) (current_uidvalidity : Int) :
    Except PyExc (List Int) :=
  if uidvalidity_changed wm current_uidvalidity then env.search_since
  else env.search_after wm.last_uid

/-- `_run_route` from the UIDVALIDITY read on: search-strategy selection,
the per-UID loop, and — outside dry-run — the single watermark write. -/
def run_route_search (cfg : Config) (env : RouteEnv) (route : RouteConfig)
    (dry_run : Bool) (watermark : Watermark) (store : Store) (tr1 : List Ev)
    (current_uidvalidity : Int) : RouteOutcome :=
  let pk := route_pk_of route
  match route_candidates env watermark current_uidvalidity with
  | .error e => ⟨.error e, store, tr1⟩
  | .ok candidate_uids =>
      let lp := run_uid_loop cfg env route pk current_uidvalidity
        (uidvalidity_changed watermark current_uidvalidity)
        dry_run candidate_uids ⟨store, 0, 0, 0, [], [], tr1⟩
      match lp.2 with
      | some e => ⟨.error e, lp.1.store, lp.1.trace⟩
      | none =>
          let st := lp.1
          let new_last_uid :=
            code_new_last_uid watermark.last_uid st.processed_uids
              st.failed_uids
          let store2 :=
            if dry_run then st.store
            else set_watermark st.store pk current_uidvalidity
              new_last_uid env.now
          let trace2 :=
            if dry_run then st.trace
            else st.trace
              ++ [Ev.set_watermark_ev pk current_uidvalidity new_last_uid]
          let status := if st.failed = 0 then ("ok") else ("partial_failure")
          let detail := "copied=" ++ toString st.copied
            ++ ", skipped_duplicates=" ++ toString st.skipped_duplicates
            ++ ", failed=" ++ toString st.failed
          ⟨.ok ⟨route.route_id, status, st.copied, st.skipped_duplicates,
             st.failed, detail⟩, store2, trace2⟩

/-- `SyncEngine._run_route`: watermark read, source token refresh, client
construction and connect, destination folder check, then
`run_route_search`. -/
def run_route (cfg : Config) (env : RouteEnv) (store : Store) (route : RouteConfig)
    (dry_run : Bool) : RouteOutcome :=
  let pk := route_pk_of route
  let watermark := get_watermark store pk
  match env.gmail_token with
  | .error e => ⟨.error e, store, []⟩
  | .ok _ =>
      match env.gmail_connect with
      | .error e =>
          ⟨.error e, store,
           [Ev.gmail_client_constructed_ev route.route_id, Ev.gmail_connect_ev]⟩
      | .ok _ =>
          match (ensure_folder env route.outlook_target_folder
              route.create_target_folder).1 with
          | .error e => ⟨.error e, store, route_pre_trace env route⟩
          | .ok _ =>
              match env.uidvalidity with
              | .error e => ⟨.error e, store, route_pre_trace env route⟩
              | .ok current_uidvalidity =>
                  run_route_search cfg env route dry_run watermark store
                    (route_pre_trace env route) current_uidvalidity

/-- Outcomes of the cycle-level external operations; `route_env i` is the
world the `i`-th configured route interacts with. -/
structure CycleEnv where
  describe_table : Except PyExc (Option String)
  ms_token : Except PyExc String
  outlook_connect : Except PyExc Unit
  route_env : Nat → RouteEnv

structure SyncRunResult where
  routes_processed : Nat
  route_results : List RouteRunResult
deriving DecidableEq, Repr

structure CycleOutcome where
  result : Except PyExc SyncRunResult
  store : Store
  trace : List Ev
deriving DecidableEq, Repr

/-- The `for route in self.config.routes` loop of `run_once`: each route runs
in a `try`; a raising route is converted into a `route_error` result with
`copied = skipped = 0, failed = 1` and the cycle continues. -/
def run_routes (cfg : Config) (cenv : CycleEnv) (dry_run : Bool) :
    List (Nat × RouteConfig) → Store → List Ev → List RouteRunResult →
    Store × List Ev × List RouteRunResult
  | [], store, trace, acc => (store, trace, acc)
  | (i, route) :: rest, store, trace, acc =>
      let out := run_route cfg (cenv.route_env i) store route dry_run
      match out.result with
      | .ok res =>
          run_routes cfg cenv dry_run rest out.store (trace ++ out.trace) (acc ++ [res])
      | .error e =>
          run_routes cfg cenv dry_run rest out.store (trace ++ out.trace)
            (acc ++ [⟨route.route_id, "route_error", 0, 0, 1, py_str_of_exc e⟩])

/-- `SyncEngine.run_once`: the DynamoDB liveness gate runs first; only on
success are the destination token refreshed, the destination client
constructed and connected, and the routes iterated. -/
def run_once (cfg : Config) (cenv : CycleEnv) (store : Store) (dry_run : Bool) :
    CycleOutcome :=
  match assert_available cfg.dynamodb_table cenv.describe_table with
  | .error e => ⟨.error e, store, [Ev.assert_available_ev]⟩
  | .ok _ =>
      match cenv.ms_token with
      | .error e => ⟨.error e, store, [Ev.assert_available_ev, Ev.ms_token_refresh_ev]⟩
      | .ok _ =>
          let tr := [Ev.assert_available_ev, Ev.ms_token_refresh_ev,
            Ev.outlook_client_constructed_ev, Ev.outlook_connect_ev]
          match cenv.outlook_connect with
          | .error e => ⟨.error e, store, tr⟩
          | .ok _ =>
              let rr := run_routes cfg cenv dry_run cfg.routes.enum store tr []
              ⟨.ok ⟨rr.2.2.length, rr.2.2⟩, rr.1, rr.2.1⟩

/-! ### Trace projections and the spec-side watermark formula -/

/-- UIDs fetched during a run (the set `P` of the spec). -/
def fetched_uids (tr : List Ev) : List Int :=
  tr.filterMap (fun e =>
    match e with
    | Ev.fetch_ev u => some u
    | _ => none)

/-- UIDs for which a failure record was written (the set `F` of the spec). -/
def failure_uids (tr : List Ev) : List Int :=
  tr.filterMap (fun e =>
    match e with
    | Ev.record_failure_ev _ _ u => some u
    | _ => none)

/-- The watermark writes of a run, in order. -/
def watermark_writes (tr : List Ev) : List (String × Int × Int) :=
  tr.filterMap (fun e =>
    match e with
    | Ev.set_watermark_ev pk v lu => some (pk, v, lu)
    | _ => none)

/-- Mutating state-store calls (the operations claim C5 names). -/
def is_store_mutation_ev : Ev → Bool
  | Ev.claim_ev _ _ _ _ => true
  | Ev.finalize_ev _ _ _ => true
  | Ev.abandon_ev _ _ _ => true
  | Ev.record_failure_ev _ _ _ => true
  | Ev.set_watermark_ev _ _ _ => true
  | _ => false

def is_append_ev : Ev → Bool
  | Ev.append_ev _ _ => true
  | _ => false

/-- Events a dry run must not produce: mutating store calls and destination
appends. -/
def is_dry_banned_ev (e : Ev) : Bool :=
  is_store_mutation_ev e || is_append_ev e

/-- The skip condition of the dry-run branch, as a function of the (stable)
store: the candidate is counted as a skipped duplicate when the resync
dedupe gate fires or its UID record already exists. -/
def dry_run_gate (env : RouteEnv) (store : Store) (pk : String) (uidv : Int)
    (changed : Bool) (uid : Int) : Bool :=
  match env.fetch uid with
  | .ok raw =>
      (changed && payload_already_copied store pk (env.message_id_of raw)
        (env.sha256_of raw))
      || uid_record_exists store pk uidv uid
  | .error _ => false

/-- The watermark-advancement policy in the words of the spec: `last_uid` if
`P = ∅`, `max(last_uid, min(F) − 1)` if `F ≠ ∅`, else `max(last_uid,
max(P))`.  Stated separately from `run_route` so the code's write can be
compared against it. -/
def spec_new_last_uid (w : Int) (P F : List Int) : Int :=
  if P = [] then w
  else if F ≠ [] then max w (py_min_int F - 1)
  else max w (py_max_int P)

theorem fetched_uids_append (a b : List Ev) :
    fetched_uids (a ++ b) = fetched_uids a ++ fetched_uids b := by
  simp [fetched_uids]

theorem failure_uids_append (a b : List Ev) :
    failure_uids (a ++ b) = failure_uids a ++ failure_uids b := by
  simp [failure_uids]

theorem watermark_writes_append (a b : List Ev) :
    watermark_writes (a ++ b) = watermark_writes a ++ watermark_writes b := by
  simp [watermark_writes]

theorem foldl_min_mem (t : List Int) (h : Int) :
    t.foldl min h = h ∨ t.foldl min h ∈ t := by
  induction t generalizing h with
  | nil => left; rfl
  | cons a t' ih =>
      have := ih (min h a)
      rcases this with heq | hmem
      · rcases min_choice h a with hc | hc
        · left; rw [List.foldl_cons, heq, hc]
        · right; rw [List.foldl_cons, heq, hc]; exact List.mem_cons_self _ _
      · right
        exact List.mem_cons_of_mem _ hmem

theorem py_min_int_mem (l : List Int) (h : l ≠ []) : py_min_int l ∈ l := by
  match l with
  | [] => exact absurd rfl h
  | a :: t =>
      rcases foldl_min_mem t a with heq | hmem
      · rw [py_min_int, heq]; exact List.mem_cons_self _ _
      · rw [py_min_int]; exact List.mem_cons_of_mem _ hmem

/-- The spec formula never moves the watermark backward. -/
theorem spec_new_last_uid_mono (w : Int) (P F : List Int) :
    w ≤ spec_new_last_uid w P F := by
  unfold spec_new_last_uid
  by_cases hP : P = []
  · simp [hP]
  · by_cases hF : F = []
    · simp [hP, hF, le_max_left]
    · simp [hP, hF, le_max_left]

/-! ### Step lemmas for the per-UID loop -/

theorem except_isOk_ok {α : Type} (a : α) : (Except.ok a : Except PyExc α).isOk = true := rfl

theorem except_isOk_error {α : Type} (e : PyExc) :
    (Except.error e : Except PyExc α).isOk = false := rfl

theorem run_uid_step_processed (cfg : Config) (env : RouteEnv) (route : RouteConfig)
    (pk : String) (uidv : Int) (changed dry_run : Bool) (st : LoopState) (uid : Int) :
    ((run_uid_step cfg env route pk uidv changed dry_run st uid).1).processed_uids
      = st.processed_uids ++ [uid] := by
  unfold run_uid_step
  cases h : env.fetch uid with
  | error e => rfl
  | ok raw =>
      dsimp only
      split
      · rfl
      · split
        · split
          · rfl
          · rfl
        · split
          · rfl
          · split
            · rfl
            · rfl

theorem run_uid_step_watermark (cfg : Config) (env : RouteEnv) (route : RouteConfig)
    (pk : String) (uidv : Int) (changed dry_run : Bool) (st : LoopState) (uid : Int) :
    watermark_writes ((run_uid_step cfg env route pk uidv changed dry_run st uid).1).trace
      = watermark_writes st.trace := by
  unfold run_uid_step
  cases h : env.fetch uid with
  | error e => rfl
  | ok raw =>
      dsimp only
      split
      · simp [watermark_writes]
      · split
        · split
          · simp [watermark_writes]
          · simp [watermark_writes]
        · split
          · simp [watermark_writes]
          · split
            · simp [watermark_writes]
            · simp [watermark_writes]

theorem run_uid_step_fetched (cfg : Config) (env : RouteEnv) (route : RouteConfig)
    (pk : String) (uidv : Int) (changed dry_run : Bool) (st : LoopState) (uid : Int) :
    (run_uid_step cfg env route pk uidv changed dry_run st uid).2 = none →
    fetched_uids ((run_uid_step cfg env route pk uidv changed dry_run st uid).1).trace
      = fetched_uids st.trace ++ [uid] := by
  unfold run_uid_step
  cases h : env.fetch uid with
  | error e => intro hc; simp at hc
  | ok raw =>
      dsimp only
      split
      · intro _; simp [fetched_uids]
      · split
        · split
          · intro _; simp [fetched_uids]
          · intro _; simp [fetched_uids]
        · split
          · intro _; simp [fetched_uids]
          · split
            · intro _; simp [fetched_uids]
            · intro _; simp [fetched_uids]

theorem run_uid_step_fetch_ok (cfg : Config) (env : RouteEnv) (route : RouteConfig)
    (pk : String) (uidv : Int) (changed dry_run : Bool) (st : LoopState) (uid : Int) :
    (env.fetch uid).isOk = true →
    (run_uid_step cfg env route pk uidv changed dry_run st uid).2 = none := by
  unfold run_uid_step
  cases h : env.fetch uid with
  | error e => intro hc; rw [except_isOk_error] at hc; cases hc
  | ok raw =>
      intro _
      dsimp only
      split
      · rfl
      · split
        · split
          · rfl
          · rfl
        · split
          · rfl
          · split
            · rfl
            · rfl

theorem run_uid_step_failures (cfg : Config) (env : RouteEnv) (route : RouteConfig)
    (pk : String) (uidv : Int) (changed dry_run : Bool) (st : LoopState) (uid : Int) :
    ∃ δ, (δ = [] ∨ (δ = [uid] ∧ (env.append_result uid).isOk = false))
      ∧ ((run_uid_step cfg env route pk uidv changed dry_run st uid).1).failed_uids
          = st.failed_uids ++ δ
      ∧ failure_uids ((run_uid_step cfg env route pk uidv changed dry_run st uid).1).trace
          = failure_uids st.trace ++ δ
      ∧ ((run_uid_step cfg env route pk uidv changed dry_run st uid).1).failed
          = st.failed + δ.length := by
  unfold run_uid_step
  cases h : env.fetch uid with
  | error e => exact ⟨[], Or.inl rfl, by simp, by simp, by simp⟩
  | ok raw =>
      dsimp only
      split
      · exact ⟨[], Or.inl rfl, by simp, by simp [failure_uids], by simp⟩
      · split
        · split
          · exact ⟨[], Or.inl rfl, by simp, by simp [failure_uids], by simp⟩
          · exact ⟨[], Or.inl rfl, by simp, by simp [failure_uids], by simp⟩
        · split
          · exact ⟨[], Or.inl rfl, by simp, by simp [failure_uids], by simp⟩
          · split
            · exact ⟨[], Or.inl rfl, by simp, by simp [failure_uids], by simp⟩
            · rename_i exc harm
              refine ⟨[uid], Or.inr ⟨rfl, by rw [harm]; rfl⟩, by simp, ?_, by simp⟩
              simp [failure_uids]

theorem run_uid_step_dry (cfg : Config) (env : RouteEnv) (route : RouteConfig)
    (pk : String) (uidv : Int) (changed : Bool) (st : LoopState) (uid : Int) :
    ((run_uid_step cfg env route pk uidv changed true st uid).1).store = st.store
    ∧ ((run_uid_step cfg env route pk uidv changed true st uid).1).trace.filter is_dry_banned_ev
        = st.trace.filter is_dry_banned_ev
    ∧ ((run_uid_step cfg env route pk uidv changed true st uid).1).copied = st.copied
    ∧ ((run_uid_step cfg env route pk uidv changed true st uid).1).failed = st.failed := by
  unfold run_uid_step
  cases h : env.fetch uid with
  | error e => exact ⟨rfl, rfl, rfl, rfl⟩
  | ok raw =>
      dsimp only
      split
      · exact ⟨rfl, by simp [is_dry_banned_ev, is_store_mutation_ev, is_append_ev], rfl, rfl⟩
      · split
        · split
          · exact ⟨rfl, by simp [is_dry_banned_ev, is_store_mutation_ev, is_append_ev], rfl, rfl⟩
          · exact ⟨rfl, by simp [is_dry_banned_ev, is_store_mutation_ev, is_append_ev], rfl, rfl⟩
        · rename_i hd
          exact absurd rfl hd

theorem run_uid_step_dry_skipped (cfg : Config) (env : RouteEnv) (route : RouteConfig)
    (pk : String) (uidv : Int) (changed : Bool) (st : LoopState) (uid : Int) :
    (run_uid_step cfg env route pk uidv changed true st uid).2 = none →
    ((run_uid_step cfg env route pk uidv changed true st uid).1).skipped_duplicates
      = st.skipped_duplicates
        + (if dry_run_gate env st.store pk uidv changed uid then 1 else 0) := by
  unfold run_uid_step
  cases hf : env.fetch uid with
  | error e => intro hc; simp at hc
  | ok raw =>
      have hg : dry_run_gate env st.store pk uidv changed uid
          = ((changed && payload_already_copied st.store pk (env.message_id_of raw)
              (env.sha256_of raw))
             || uid_record_exists st.store pk uidv uid) := by
        unfold dry_run_gate
        rw [hf]
      rw [hg]
      dsimp only
      split
      · rename_i hcond
        intro _
        simp [hcond]
      · rename_i hcond
        rw [Bool.not_eq_true] at hcond
        split
        · split
          · rename_i hex
            intro _
            simp [hcond, hex]
          · rename_i hex
            rw [Bool.not_eq_true] at hex
            intro _
            simp [hcond, hex]
        · rename_i hd
          exact absurd rfl hd

theorem run_uid_step_containment (cfg : Config) (env : RouteEnv) (route : RouteConfig)
    (pk : String) (uidv : Int) (changed : Bool) (st : LoopState) (uid : Int)
    (hpre : ∀ u, Ev.claim_ev pk uidv u true ∈ st.trace →
      (env.append_result u).isOk = false →
      Ev.abandon_ev pk uidv u ∈ st.trace ∧ Ev.record_failure_ev pk uidv u ∈ st.trace) :
    ∀ u, Ev.claim_ev pk uidv u true
        ∈ ((run_uid_step cfg env route pk uidv changed false st uid).1).trace →
      (env.append_result u).isOk = false →
      Ev.abandon_ev pk uidv u
          ∈ ((run_uid_step cfg env route pk uidv changed false st uid).1).trace
        ∧ Ev.record_failure_ev pk uidv u
          ∈ ((run_uid_step cfg env route pk uidv changed false st uid).1).trace := by
  unfold run_uid_step
  cases h : env.fetch uid with
  | error e =>
      intro u hu hfail
      exact hpre u hu hfail
  | ok raw =>
      dsimp only
      split
      · intro u hu hfail
        rcases List.mem_append.mp hu with hu | hu
        · obtain ⟨h1, h2⟩ := hpre u hu hfail
          exact ⟨List.mem_append_left _ h1, List.mem_append_left _ h2⟩
        · simp at hu
      · split
        · rename_i hd
          simp at hd
        · split
          · rename_i hcl
            rw [Bool.not_eq_true'] at hcl
            intro u hu hfail
            rcases List.mem_append.mp hu with hu | hu
            · rcases List.mem_append.mp hu with hu | hu
              · obtain ⟨h1, h2⟩ := hpre u hu hfail
                exact ⟨List.mem_append_left _ (List.mem_append_left _ h1),
                       List.mem_append_left _ (List.mem_append_left _ h2)⟩
              · simp at hu
            · rw [hcl] at hu
              simp at hu
          · rename_i hcl
            rw [Bool.not_eq_true, Bool.not_eq_false'] at hcl
            split
            · rename_i val harm
              intro u hu hfail
              rcases List.mem_append.mp hu with hu | hu
              · rcases List.mem_append.mp hu with hu | hu
                · rcases List.mem_append.mp hu with hu | hu
                  · obtain ⟨h1, h2⟩ := hpre u hu hfail
                    exact ⟨List.mem_append_left _
                        (List.mem_append_left _ (List.mem_append_left _ h1)),
                      List.mem_append_left _
                        (List.mem_append_left _ (List.mem_append_left _ h2))⟩
                  · simp at hu
                · rw [hcl] at hu
                  simp only [List.mem_singleton, Ev.claim_ev.injEq] at hu
                  rw [hu.2.2.1, harm] at hfail
                  rw [except_isOk_ok] at hfail
                  exact Bool.noConfusion hfail
              · simp at hu
            · rename_i exc harm
              intro u hu hfail
              rcases List.mem_append.mp hu with hu | hu
              · rcases List.mem_append.mp hu with hu | hu
                · rcases List.mem_append.mp hu with hu | hu
                  · obtain ⟨h1, h2⟩ := hpre u hu hfail
                    exact ⟨List.mem_append_left _
                        (List.mem_append_left _ (List.mem_append_left _ h1)),
                      List.mem_append_left _
                        (List.mem_append_left _ (List.mem_append_left _ h2))⟩
                  · simp at hu
                · rw [hcl] at hu
                  simp only [List.mem_singleton, Ev.claim_ev.injEq] at hu
                  rw [hu.2.2.1]
                  exact ⟨List.mem_append_right _ (by simp),
                         List.mem_append_right _ (by simp)⟩
              · simp at hu

/-! ### Loop lemmas -/

theorem run_uid_loop_watermark (cfg : Config) (env : RouteEnv) (route : RouteConfig)
    (pk : String) (uidv : Int) (changed dry_run : Bool) (l : List Int) (st : LoopState) :
    watermark_writes ((run_uid_loop cfg env route pk uidv changed dry_run l st).1).trace
      = watermark_writes st.trace := by
  induction l generalizing st with
  | nil => rfl
  | cons uid rest ih =>
      have hw := run_uid_step_watermark cfg env route pk uidv changed dry_run st uid
      simp only [run_uid_loop]
      cases hstep : run_uid_step cfg env route pk uidv changed dry_run st uid with
      | mk st1 e1 =>
          rw [hstep] at hw
          cases e1 with
          | none =>
              dsimp only
              rw [ih st1]
              exact hw
          | some e =>
              dsimp only
              exact hw

theorem run_uid_loop_complete (cfg : Config) (env : RouteEnv) (route : RouteConfig)
    (pk : String) (uidv : Int) (changed dry_run : Bool) (l : List Int) (st : LoopState)
    (h : (run_uid_loop cfg env route pk uidv changed dry_run l st).2 = none) :
    ((run_uid_loop cfg env route pk uidv changed dry_run l st).1).processed_uids
        = st.processed_uids ++ l
    ∧ fetched_uids ((run_uid_loop cfg env route pk uidv changed dry_run l st).1).trace
        = fetched_uids st.trace ++ l := by
  induction l generalizing st with
  | nil => exact ⟨by simp [run_uid_loop], by simp [run_uid_loop]⟩
  | cons uid rest ih =>
      have hp := run_uid_step_processed cfg env route pk uidv changed dry_run st uid
      have hf := run_uid_step_fetched cfg env route pk uidv changed dry_run st uid
      simp only [run_uid_loop] at h ⊢
      cases hstep : run_uid_step cfg env route pk uidv changed dry_run st uid with
      | mk st1 e1 =>
          rw [hstep] at h hp hf
          cases e1 with
          | none =>
              dsimp only at h hp hf ⊢
              obtain ⟨ih1, ih2⟩ := ih st1 h
              constructor
              · rw [ih1, hp, List.append_assoc, List.singleton_append]
              · rw [ih2, hf rfl, List.append_assoc, List.singleton_append]
          | some e =>
              dsimp only at h
              exact absurd h (by simp)

theorem run_uid_loop_fetch_ok (cfg : Config) (env : RouteEnv) (route : RouteConfig)
    (pk : String) (uidv : Int) (changed dry_run : Bool) (l : List Int) (st : LoopState)
    (h : ∀ u ∈ l, (env.fetch u).isOk = true) :
    (run_uid_loop cfg env route pk uidv changed dry_run l st).2 = none := by
  induction l generalizing st with
  | nil => rfl
  | cons uid rest ih =>
      have hok := run_uid_step_fetch_ok cfg env route pk uidv changed dry_run st uid
        (h uid (List.mem_cons_self _ _))
      simp only [run_uid_loop]
      cases hstep : run_uid_step cfg env route pk uidv changed dry_run st uid with
      | mk st1 e1 =>
          rw [hstep] at hok
          cases e1 with
          | none =>
              dsimp only
              exact ih st1 (fun u hu => h u (List.mem_cons_of_mem _ hu))
          | some e =>
              dsimp only at hok
              exact absurd hok (by simp)

theorem run_uid_loop_failures (cfg : Config) (env : RouteEnv) (route : RouteConfig)
    (pk : String) (uidv : Int) (changed dry_run : Bool) (l : List Int) (st : LoopState) :
    ∃ δ, ((run_uid_loop cfg env route pk uidv changed dry_run l st).1).failed_uids
          = st.failed_uids ++ δ
      ∧ failure_uids ((run_uid_loop cfg env route pk uidv changed dry_run l st).1).trace
          = failure_uids st.trace ++ δ
      ∧ ((run_uid_loop cfg env route pk uidv changed dry_run l st).1).failed
          = st.failed + δ.length
      ∧ ∀ u ∈ δ, (env.append_result u).isOk = false := by
  induction l generalizing st with
  | nil => exact ⟨[], by simp [run_uid_loop], by simp [run_uid_loop],
      by simp [run_uid_loop], by simp⟩
  | cons uid rest ih =>
      obtain ⟨δf, hδf, h1, h2, h3⟩ :=
        run_uid_step_failures cfg env route pk uidv changed dry_run st uid
      simp only [run_uid_loop]
      cases hstep : run_uid_step cfg env route pk uidv changed dry_run st uid with
      | mk st1 e1 =>
          rw [hstep] at h1 h2 h3
          dsimp only at h1 h2 h3
          have hδfok : ∀ u ∈ δf, (env.append_result u).isOk = false := by
            intro u hu
            rcases hδf with hnil | ⟨huid, hfl⟩
            · rw [hnil] at hu
              exact absurd hu (List.not_mem_nil _)
            · rw [huid] at hu
              rw [List.mem_singleton] at hu
              rw [hu]
              exact hfl
          cases e1 with
          | none =>
              dsimp only
              obtain ⟨δ', i1, i2, i3, i4⟩ := ih st1
              refine ⟨δf ++ δ', ?_, ?_, ?_, ?_⟩
              · rw [i1, h1, List.append_assoc]
              · rw [i2, h2, List.append_assoc]
              · rw [i3, h3, List.length_append]
                omega
              · intro u hu
                rcases List.mem_append.mp hu with hu | hu
                · exact hδfok u hu
                · exact i4 u hu
          | some e =>
              dsimp only
              exact ⟨δf, h1, h2, h3, hδfok⟩

theorem run_uid_loop_dry (cfg : Config) (env : RouteEnv) (route : RouteConfig)
    (pk : String) (uidv : Int) (changed : Bool) (l : List Int) (st : LoopState) :
    ((run_uid_loop cfg env route pk uidv changed true l st).1).store = st.store
    ∧ ((run_uid_loop cfg env route pk uidv changed true l st).1).trace.filter
        is_dry_banned_ev = st.trace.filter is_dry_banned_ev
    ∧ ((run_uid_loop cfg env route pk uidv changed true l st).1).copied = st.copied
    ∧ ((run_uid_loop cfg env route pk uidv changed true l st).1).failed = st.failed := by
  induction l generalizing st with
  | nil => exact ⟨rfl, rfl, rfl, rfl⟩
  | cons uid rest ih =>
      obtain ⟨d1, d2, d3, d4⟩ := run_uid_step_dry cfg env route pk uidv changed st uid
      simp only [run_uid_loop]
      cases hstep : run_uid_step cfg env route pk uidv changed true st uid with
      | mk st1 e1 =>
          rw [hstep] at d1 d2 d3 d4
          dsimp only at d1 d2 d3 d4
          cases e1 with
          | none =>
              dsimp only
              obtain ⟨i1, i2, i3, i4⟩ := ih st1
              exact ⟨i1.trans d1, i2.trans d2, i3.trans d3, i4.trans d4⟩
          | some e =>
              dsimp only
              exact ⟨d1, d2, d3, d4⟩

theorem run_uid_loop_dry_skipped (cfg : Config) (env : RouteEnv) (route : RouteConfig)
    (pk : String) (uidv : Int) (changed : Bool) (l : List Int) (st : LoopState)
    (h : (run_uid_loop cfg env route pk uidv changed true l st).2 = none) :
    ((run_uid_loop cfg env route pk uidv changed true l st).1).skipped_duplicates
      = st.skipped_duplicates
        + l.countP (dry_run_gate env st.store pk uidv changed) := by
  induction l generalizing st with
  | nil => simp [run_uid_loop]
  | cons uid rest ih =>
      have hsk := run_uid_step_dry_skipped cfg env route pk uidv changed st uid
      have hst := (run_uid_step_dry cfg env route pk uidv changed st uid).1
      simp only [run_uid_loop] at h ⊢
      cases hstep : run_uid_step cfg env route pk uidv changed true st uid with
      | mk st1 e1 =>
          rw [hstep] at h hsk hst
          cases e1 with
          | none =>
              dsimp only at h hsk hst ⊢
              rw [ih st1 h, hst, hsk rfl, List.countP_cons]
              omega
          | some e =>
              dsimp only at h
              exact absurd h (by simp)

theorem run_uid_loop_containment (cfg : Config) (env : RouteEnv) (route : RouteConfig)
    (pk : String) (uidv : Int) (changed : Bool) (l : List Int) (st : LoopState)
    (hpre : ∀ u, Ev.claim_ev pk uidv u true ∈ st.trace →
      (env.append_result u).isOk = false →
      Ev.abandon_ev pk uidv u ∈ st.trace ∧ Ev.record_failure_ev pk uidv u ∈ st.trace) :
    ∀ u, Ev.claim_ev pk uidv u true
        ∈ ((run_uid_loop cfg env route pk uidv changed false l st).1).trace →
      (env.append_result u).isOk = false →
      Ev.abandon_ev pk uidv u
          ∈ ((run_uid_loop cfg env route pk uidv changed false l st).1).trace
        ∧ Ev.record_failure_ev pk uidv u
          ∈ ((run_uid_loop cfg env route pk uidv changed false l st).1).trace := by
  induction l generalizing st with
  | nil => exact hpre
  | cons uid rest ih =>
      have hc := run_uid_step_containment cfg env route pk uidv changed st uid hpre
      simp only [run_uid_loop]
      cases hstep : run_uid_step cfg env route pk uidv changed false st uid with
      | mk st1 e1 =>
          rw [hstep] at hc
          cases e1 with
          | none =>
              dsimp only at hc ⊢
              exact ih st1 hc
          | some e =>
              dsimp only at hc ⊢
              exact hc

/-! ### Route-level characterization -/

theorem ensure_folder_trace (env : RouteEnv) (f : String) (c : Bool) :
    (ensure_folder env f c).2 = [] ∨ (ensure_folder env f c).2 = [Ev.folder_create_ev f] := by
  unfold ensure_folder
  split
  · exact Or.inl rfl
  · split
    · exact Or.inl rfl
    · split
      · exact Or.inr rfl
      · exact Or.inr rfl

theorem route_pre_trace_proj (env : RouteEnv) (route : RouteConfig) :
    fetched_uids (route_pre_trace env route) = []
    ∧ failure_uids (route_pre_trace env route) = []
    ∧ watermark_writes (route_pre_trace env route) = []
    ∧ (route_pre_trace env route).filter is_dry_banned_ev = [] := by
  unfold route_pre_trace
  rcases ensure_folder_trace env route.outlook_target_folder route.create_target_folder
    with hef | hef <;> rw [hef] <;>
    exact ⟨rfl, rfl, rfl, rfl⟩

/-- What `run_route_search` guarantees whenever it returns a result: the
chosen search succeeded, the per-UID loop ran to completion from the
post-setup state, the returned counters are the loop's and — outside
dry-run — the store receives the single watermark write computed by
`code_new_last_uid` and the trace records it. -/
theorem run_route_search_spec (cfg : Config) (env : RouteEnv) (route : RouteConfig)
    (dry_run : Bool) (wm : Watermark) (store : Store) (tr1 : List Ev) (cv : Int)
    (res : RouteRunResult)
    (h : (run_route_search cfg env route dry_run wm store tr1 cv).result
      = Except.ok res) :
    ∃ cands lp,
      route_candidates env wm cv = Except.ok cands
      ∧ run_uid_loop cfg env route (route_pk_of route) cv
          (uidvalidity_changed wm cv) dry_run cands
          ⟨store, 0, 0, 0, [], [], tr1⟩ = (lp, none)
      ∧ res = ⟨route.route_id, if lp.failed = 0 then ("ok") else ("partial_failure"),
          lp.copied, lp.skipped_duplicates, lp.failed,
          "copied=" ++ toString lp.copied ++ ", skipped_duplicates="
            ++ toString lp.skipped_duplicates ++ ", failed=" ++ toString lp.failed⟩
      ∧ run_route_search cfg env route dry_run wm store tr1 cv
          = ⟨Except.ok res,
             (if dry_run then lp.store
              else set_watermark lp.store (route_pk_of route) cv
                (code_new_last_uid wm.last_uid lp.processed_uids lp.failed_uids)
                env.now),
             (if dry_run then lp.trace
              else lp.trace ++ [Ev.set_watermark_ev (route_pk_of route) cv
                (code_new_last_uid wm.last_uid lp.processed_uids
                  lp.failed_uids)])⟩ := by
  unfold run_route_search at h
  split at h
  · simp at h
  · rename_i cands hcands
    dsimp only at h
    split at h
    · simp at h
    · rename_i hloop
      dsimp only at h
      injection h with h
      subst h
      refine ⟨cands, _, hcands, ?_, rfl, ?_⟩
      · rw [← hloop]
      · unfold run_route_search
        rw [hcands]
        dsimp only
        rw [hloop]

/-- What `_run_route` guarantees whenever it returns a result (rather than
raising): setup succeeded and `run_route_search_spec` applies with the
route's watermark and pre-trace. -/
def RouteSpec (cfg : Config) (env : RouteEnv) (store : Store) (route : RouteConfig)
    (dry_run : Bool) (out : RouteOutcome) : Prop :=
  ∀ res, out.result = Except.ok res →
    ∃ cv, env.uidvalidity = Except.ok cv
      ∧ out = run_route_search cfg env route dry_run
          (get_watermark store (route_pk_of route)) store
          (route_pre_trace env route) cv

theorem run_route_spec (cfg : Config) (env : RouteEnv) (store : Store)
    (route : RouteConfig) (dry_run : Bool) :
    RouteSpec cfg env store route dry_run (run_route cfg env store route dry_run) := by
  unfold RouteSpec
  intro res h
  unfold run_route at h
  split at h
  · simp at h
  · rename_i tok htok
    split at h
    · simp at h
    · rename_i u1 hcn
      split at h
      · simp at h
      · rename_i u2 hef
        split at h
        · simp at h
        · rename_i cv hcv
          refine ⟨cv, hcv, ?_⟩
          unfold run_route
          rw [htok, hcn, hef, hcv]

theorem code_new_last_uid_eq_spec (w : Int) (P F : List Int) :
    code_new_last_uid w P F = spec_new_last_uid w P F := by
  cases P <;> cases F <;> simp [code_new_last_uid, spec_new_last_uid]

/-- Shared characterization: a completed non-dry-run route run writes exactly
one watermark, under the route's partition key and the current uidvalidity,
whose `last_uid` is the spec formula applied to the prior watermark, the
fetched UIDs and the failed UIDs of the run's trace. -/
theorem run_route_watermark_char (cfg : Config) (env : RouteEnv) (store : Store)
    (route : RouteConfig) (res : RouteRunResult)
    (h : (run_route cfg env store route false).result = Except.ok res) :
    ∃ cv, env.uidvalidity = Except.ok cv
      ∧ watermark_writes (run_route cfg env store route false).trace
          = [(route_pk_of route, cv,
              spec_new_last_uid (get_watermark store (route_pk_of route)).last_uid
                (fetched_uids (run_route cfg env store route false).trace)
                (failure_uids (run_route cfg env store route false).trace))] := by
  obtain ⟨cv, hcv, hout⟩ := run_route_spec cfg env store route false res h
  rw [hout] at h
  obtain ⟨cands, lp, hcands, hloop, hres, hsearch⟩ :=
    run_route_search_spec cfg env route false
      (get_watermark store (route_pk_of route)) store (route_pre_trace env route) cv res h
  obtain ⟨hpre_f, hpre_r, hpre_w, hpre_b⟩ := route_pre_trace_proj env route
  have hnone : (run_uid_loop cfg env route (route_pk_of route) cv
      (uidvalidity_changed (get_watermark store (route_pk_of route)) cv) false cands
      ⟨store, 0, 0, 0, [], [], route_pre_trace env route⟩).2 = none := by
    rw [hloop]
  have hwm := run_uid_loop_watermark cfg env route (route_pk_of route) cv
    (uidvalidity_changed (get_watermark store (route_pk_of route)) cv) false cands
    ⟨store, 0, 0, 0, [], [], route_pre_trace env route⟩
  have hcomp := run_uid_loop_complete cfg env route (route_pk_of route) cv
    (uidvalidity_changed (get_watermark store (route_pk_of route)) cv) false cands
    ⟨store, 0, 0, 0, [], [], route_pre_trace env route⟩ hnone
  obtain ⟨δ, hδ1, hδ2, hδ3, hδ4⟩ := run_uid_loop_failures cfg env route (route_pk_of route) cv
    (uidvalidity_changed (get_watermark store (route_pk_of route)) cv) false cands
    ⟨store, 0, 0, 0, [], [], route_pre_trace env route⟩
  rw [hloop] at hwm hcomp hδ1 hδ2
  dsimp only at hwm hcomp hδ1 hδ2
  rw [hpre_w] at hwm
  obtain ⟨hproc, hfetch⟩ := hcomp
  rw [hpre_f] at hfetch
  rw [hpre_r] at hδ2
  rw [List.nil_append] at hproc hfetch hδ1 hδ2
  refine ⟨cv, hcv, ?_⟩
  rw [hout, hsearch]
  dsimp only [RouteOutcome.trace]
  rw [if_neg (by simp)]
  rw [watermark_writes_append, fetched_uids_append, failure_uids_append, hwm]
  have hf1 : fetched_uids [Ev.set_watermark_ev (route_pk_of route) cv
      (code_new_last_uid (get_watermark store (route_pk_of route)).last_uid
        lp.processed_uids lp.failed_uids)] = [] := rfl
  have hf2 : failure_uids [Ev.set_watermark_ev (route_pk_of route) cv
      (code_new_last_uid (get_watermark store (route_pk_of route)).last_uid
        lp.processed_uids lp.failed_uids)] = [] := rfl
  have hf3 : watermark_writes [Ev.set_watermark_ev (route_pk_of route) cv
      (code_new_last_uid (get_watermark store (route_pk_of route)).last_uid
        lp.processed_uids lp.failed_uids)]
      = [(route_pk_of route, cv,
          code_new_last_uid (get_watermark store (route_pk_of route)).last_uid
            lp.processed_uids lp.failed_uids)] := rfl
  rw [hf1, hf2, hf3, List.nil_append, List.append_nil, List.append_nil]
  rw [hfetch, hδ2, hproc, hδ1, code_new_last_uid_eq_spec]

/-- Claim C2 (Watermark advancement): every completed non-dry-run route run
writes exactly one watermark; its `last_uid` equals the prior `last_uid` when
no UID was fetched, `max(last_uid, min(F) − 1)` when the failure set `F` is
nonempty, and `max(last_uid, max(P))` otherwise — and it is never below the
prior `last_uid`. -/
theorem run_route_watermark_policy (cfg : Config) (env : RouteEnv) (store : Store)
    (route : RouteConfig) (res : RouteRunResult)
    (h : (run_route cfg env store route false).result = Except.ok res) :
    ∃ cv, env.uidvalidity = Except.ok cv
      ∧ watermark_writes (run_route cfg env store route false).trace
          = [(route_pk_of route, cv,
              spec_new_last_uid (get_watermark store (route_pk_of route)).last_uid
                (fetched_uids (run_route cfg env store route false).trace)
                (failure_uids (run_route cfg env store route false).trace))]
      ∧ (get_watermark store (route_pk_of route)).last_uid
          ≤ spec_new_last_uid (get_watermark store (route_pk_of route)).last_uid
              (fetched_uids (run_route cfg env store route false).trace)
              (failure_uids (run_route cfg env store route false).trace) := by
  obtain ⟨cv, hcv, hww⟩ := run_route_watermark_char cfg env store route res h
  exact ⟨cv, hcv, hww, spec_new_last_uid_mono _ _ _⟩

/-- Claim C3, amended: replay preservation — the watermark written at the end
of a completed non-dry-run route cycle with failures is strictly below the
smallest failed UID — holds exactly when every failed UID of the cycle
exceeds the prior watermark's `last_uid` (as in every non-resync cycle whose
search honours the `(last_uid, ∞)` range); a resync cycle can fail it. -/
theorem replay_preservation_amended (cfg : Config) (env : RouteEnv) (store : Store)
    (route : RouteConfig) (res : RouteRunResult)
    (h : (run_route cfg env store route false).result = Except.ok res)
    (hfub : ∀ u ∈ failure_uids (run_route cfg env store route false).trace,
      (get_watermark store (route_pk_of route)).last_uid < u)
    (hne : failure_uids (run_route cfg env store route false).trace ≠ []) :
    ∃ cv lu, env.uidvalidity = Except.ok cv
      ∧ watermark_writes (run_route cfg env store route false).trace
          = [(route_pk_of route, cv, lu)]
      ∧ lu < py_min_int (failure_uids (run_route cfg env store route false).trace) := by
  obtain ⟨cv, hcv, hww⟩ := run_route_watermark_char cfg env store route res h
  have hminF : (get_watermark store (route_pk_of route)).last_uid
      < py_min_int (failure_uids (run_route cfg env store route false).trace) :=
    hfub _ (py_min_int_mem _ hne)
  refine ⟨cv, _, hcv, hww, ?_⟩
  unfold spec_new_last_uid
  by_cases hP : fetched_uids (run_route cfg env store route false).trace = []
  · rw [if_pos hP]
    exact hminF
  · rw [if_neg hP, if_pos hne]
    exact max_lt hminF (by omega)

theorem run_route_search_dry_pure (cfg : Config) (env : RouteEnv) (route : RouteConfig)
    (wm : Watermark) (store : Store) (tr1 : List Ev) (cv : Int)
    (htr : tr1.filter is_dry_banned_ev = []) :
    (run_route_search cfg env route true wm store tr1 cv).store = store
    ∧ ((run_route_search cfg env route true wm store tr1 cv).trace).filter
        is_dry_banned_ev = [] := by
  unfold run_route_search
  split
  · exact ⟨rfl, htr⟩
  · rename_i cands hcands
    dsimp only
    have hd := run_uid_loop_dry cfg env route (route_pk_of route) cv
      (uidvalidity_changed wm cv) cands ⟨store, 0, 0, 0, [], [], tr1⟩
    split
    · exact ⟨hd.1, by rw [hd.2.1]; exact htr⟩
    · constructor
      · simp only [if_pos]
        exact hd.1
      · simp only [if_pos]
        rw [hd.2.1]
        exact htr

theorem run_route_dry_pure (cfg : Config) (env : RouteEnv) (store : Store)
    (route : RouteConfig) :
    (run_route cfg env store route true).store = store
    ∧ ((run_route cfg env store route true).trace).filter is_dry_banned_ev = [] := by
  unfold run_route
  split
  · exact ⟨rfl, rfl⟩
  · split
    · exact ⟨rfl, rfl⟩
    · split
      · exact ⟨rfl, (route_pre_trace_proj env route).2.2.2⟩
      · split
        · exact ⟨rfl, (route_pre_trace_proj env route).2.2.2⟩
        · exact run_route_search_dry_pure cfg env route _ store _ _
            (route_pre_trace_proj env route).2.2.2

theorem run_routes_dry_pure (cfg : Config) (cenv : CycleEnv)
    (rs : List (Nat × RouteConfig)) (store : Store) (trace : List Ev)
    (acc : List RouteRunResult)
    (htr : trace.filter is_dry_banned_ev = []) :
    (run_routes cfg cenv true rs store trace acc).1 = store
    ∧ ((run_routes cfg cenv true rs store trace acc).2.1).filter
        is_dry_banned_ev = [] := by
  induction rs generalizing store trace acc with
  | nil => exact ⟨rfl, htr⟩
  | cons p rest ih =>
      obtain ⟨i, route⟩ := p
      have hroute := run_route_dry_pure cfg (cenv.route_env i) store route
      have hcat : ((trace ++ (run_route cfg (cenv.route_env i) store route true).trace).filter
          is_dry_banned_ev) = [] := by
        rw [List.filter_append, htr, hroute.2]
        rfl
      simp only [run_routes]
      split
      · rename_i r hres
        have := ih ((run_route cfg (cenv.route_env i) store route true).store)
          (trace ++ (run_route cfg (cenv.route_env i) store route true).trace)
          (acc ++ [r]) hcat
        exact ⟨by rw [this.1, hroute.1], this.2⟩
      · rename_i e hres
        have := ih ((run_route cfg (cenv.route_env i) store route true).store)
          (trace ++ (run_route cfg (cenv.route_env i) store route true).trace)
          (acc ++ [⟨route.route_id, "route_error", 0, 0, 1, py_str_of_exc e⟩]) hcat
        exact ⟨by rw [this.1, hroute.1], this.2⟩

/-- Claim C5, amended (Dry-run purity): a dry-run cycle invokes no mutating
state-store operation (no claim, finalize, abandon, record-failure or
watermark write — the final store equals the initial store) and issues no
`append_rfc822`; however `ensure_folder` still runs in dry-run, so a folder
CREATE can occur when the target folder is missing and
`create_target_folder` is set. -/
theorem dry_run_purity (cfg : Config) (cenv : CycleEnv) (store : Store) :
    (run_once cfg cenv store true).store = store
    ∧ ((run_once cfg cenv store true).trace).filter is_dry_banned_ev = [] := by
  unfold run_once
  split
  · exact ⟨rfl, rfl⟩
  · split
    · exact ⟨rfl, rfl⟩
    · split
      · exact ⟨rfl, rfl⟩
      · dsimp only
        exact run_routes_dry_pure cfg cenv cfg.routes.enum store
          [Ev.assert_available_ev, Ev.ms_token_refresh_ev,
            Ev.outlook_client_constructed_ev, Ev.outlook_connect_ev] [] rfl

/-- Claim C4 (Fail-safe gate): when `assert_available` raises, `run_once`
propagates that store-unavailable error, the store is untouched and the
trace shows only the liveness probe — no token refresh, no client
construction, no IMAP operation. -/
theorem fail_safe_gate (cfg : Config) (cenv : CycleEnv) (store : Store)
    (dry_run : Bool) (e : PyExc)
    (h : assert_available cfg.dynamodb_table cenv.describe_table = Except.error e) :
    run_once cfg cenv store dry_run
      = ⟨Except.error e, store, [Ev.assert_available_ev]⟩ := by
  unfold run_once
  rw [h]

/-- Claim C6 (Per-UID failure containment): in a non-dry-run UID loop in
which every fetch succeeds, the loop always completes (no append error
propagates), every candidate is processed, every successfully claimed UID
whose append failed has its PENDING claim abandoned and a FailRecord
written, and the failed counter grows by exactly the number of UIDs whose
append failed. -/
theorem per_uid_failure_containment (cfg : Config) (env : RouteEnv)
    (route : RouteConfig) (pk : String) (uidv : Int) (changed : Bool)
    (l : List Int) (st : LoopState)
    (hfetch : ∀ u ∈ l, (env.fetch u).isOk = true)
    (hpre : ∀ u, Ev.claim_ev pk uidv u true ∈ st.trace →
      (env.append_result u).isOk = false →
      Ev.abandon_ev pk uidv u ∈ st.trace ∧ Ev.record_failure_ev pk uidv u ∈ st.trace) :
    (run_uid_loop cfg env route pk uidv changed false l st).2 = none
    ∧ ((run_uid_loop cfg env route pk uidv changed false l st).1).processed_uids
        = st.processed_uids ++ l
    ∧ (∀ u, Ev.claim_ev pk uidv u true
          ∈ ((run_uid_loop cfg env route pk uidv changed false l st).1).trace →
        (env.append_result u).isOk = false →
        Ev.abandon_ev pk uidv u
            ∈ ((run_uid_loop cfg env route pk uidv changed false l st).1).trace
          ∧ Ev.record_failure_ev pk uidv u
            ∈ ((run_uid_loop cfg env route pk uidv changed false l st).1).trace)
    ∧ ∃ δ, ((run_uid_loop cfg env route pk uidv changed false l st).1).failed_uids
          = st.failed_uids ++ δ
        ∧ ((run_uid_loop cfg env route pk uidv changed false l st).1).failed
          = st.failed + δ.length
        ∧ ∀ u ∈ δ, (env.append_result u).isOk = false := by
  have h2 := run_uid_loop_fetch_ok cfg env route pk uidv changed false l st hfetch
  obtain ⟨δ, ha, hb, hc, hd⟩ :=
    run_uid_loop_failures cfg env route pk uidv changed false l st
  exact ⟨h2, (run_uid_loop_complete cfg env route pk uidv changed false l st h2).1,
    run_uid_loop_containment cfg env route pk uidv changed l st hpre,
    δ, ha, hc, hd⟩

/-- Claim C9 (Dry-run result shape): a completed dry-run route run reports
`copied = 0`, `failed = 0` and status `"ok"`; its `skipped_duplicates`
counts exactly the candidates for which the resync dedupe gate fires or a
UID record already exists, and would-copy candidates are counted nowhere. -/
theorem dry_run_result_shape (cfg : Config) (env : RouteEnv) (store : Store)
    (route : RouteConfig) (res : RouteRunResult)
    (h : (run_route cfg env store route true).result = Except.ok res) :
    res.copied = 0 ∧ res.failed = 0 ∧ res.status = "ok"
    ∧ ∃ cv cands, env.uidvalidity = Except.ok cv
        ∧ route_candidates env (get_watermark store (route_pk_of route)) cv
            = Except.ok cands
        ∧ res.skipped_duplicates
            = cands.countP (dry_run_gate env store (route_pk_of route) cv
                (uidvalidity_changed (get_watermark store (route_pk_of route)) cv)) := by
  obtain ⟨cv, hcv, hout⟩ := run_route_spec cfg env store route true res h
  rw [hout] at h
  obtain ⟨cands, lp, hcands, hloop, hres, hsearch⟩ :=
    run_route_search_spec cfg env route true
      (get_watermark store (route_pk_of route)) store (route_pre_trace env route) cv res h
  have hnone : (run_uid_loop cfg env route (route_pk_of route) cv
      (uidvalidity_changed (get_watermark store (route_pk_of route)) cv) true cands
      ⟨store, 0, 0, 0, [], [], route_pre_trace env route⟩).2 = none := by
    rw [hloop]
  have hd := run_uid_loop_dry cfg env route (route_pk_of route) cv
    (uidvalidity_changed (get_watermark store (route_pk_of route)) cv) cands
    ⟨store, 0, 0, 0, [], [], route_pre_trace env route⟩
  have hsk := run_uid_loop_dry_skipped cfg env route (route_pk_of route) cv
    (uidvalidity_changed (get_watermark store (route_pk_of route)) cv) cands
    ⟨store, 0, 0, 0, [], [], route_pre_trace env route⟩ hnone
  rw [hloop] at hd hsk
  dsimp only at hd hsk
  obtain ⟨hd1, hd2, hd3, hd4⟩ := hd
  subst hres
  refine ⟨hd3, hd4, ?_, cv, cands, hcv, hcands, ?_⟩
  · dsimp only
    rw [if_pos hd4]
  · dsimp only
    rw [hsk]
    exact Nat.zero_add _

/-! ### Concrete fixtures for witnesses and counterexamples -/

def wroute : RouteConfig :=
  ⟨"g1@example.com", "cid", "sec", "ref", "o@example.com", "Archive", false⟩

def wcfg : Config := ⟨"state-table", 24, 365, 14, 1, [wroute]⟩

def wpk : String := route_pk_of wroute

/-- A store holding one watermark `(uidvalidity := 300, last_uid := 100)`. -/
def wstore : Store := set_watermark [] wpk 300 100 0

/-- A world in which the three candidates 101-103 fetch fine and the append
of UID 102 fails after retries. -/
def wenv : RouteEnv :=
  { gmail_token := .ok ("tok")
    gmail_connect := .ok ()
    dest_select_ok := true
    dest_create_ok := true
    uidvalidity := .ok 300
    search_since := .ok []
    search_after := fun _ => .ok [101, 102, 103]
    fetch := fun u => .ok [u.toNat]
    append_result := fun u =>
      if u = 102 then .error (.outlookImapError ("Outlook APPEND failed: NO"))
      else .ok ()
    message_id_of := fun _ => none
    sha256_of := fun raw => toString raw
    now := 1000 }

/-- A resync world: stored uidvalidity 100, server reports 200, the bounded
lookback search returns UID 10 (below the stored `last_uid` 50) and its
append fails. -/
def c3store : Store := set_watermark [] wpk 100 50 0

def c3env : RouteEnv :=
  { wenv with
    uidvalidity := .ok 200
    search_since := .ok [10]
    search_after := fun _ => .ok []
    append_result := fun _ => .error (.outlookImapError ("Outlook APPEND failed: NO")) }

/-- A dry-run world in which the destination folder is missing and the route
allows creating it. -/
def c5route : RouteConfig := { wroute with create_target_folder := true }

def c5cfg : Config := { wcfg with routes := [c5route] }

def c5env : RouteEnv := { wenv with dest_select_ok := false }

def c5cenv : CycleEnv := ⟨.ok (some ("ACTIVE")), .ok ("mtok"), .ok (), fun _ => c5env⟩

/-- A cycle whose DynamoDB `describe_table` probe raises. -/
def gate_fail_cenv : CycleEnv :=
  ⟨.error (.osError ("net down")), .ok ("mtok"), .ok (), fun _ => wenv⟩

def c6init : LoopState := ⟨wstore, 0, 0, 0, [], [], []⟩

/-- Witness for `fail_safe_gate` at the concrete failing probe. -/
theorem fail_safe_gate_witness :
    (assert_available wcfg.dynamodb_table gate_fail_cenv.describe_table
       = Except.error (PyExc.dynamoUnavailableError
           ("DynamoDB unavailable for table state-table: net down")))
    ∧ run_once wcfg gate_fail_cenv [] true
       = ⟨Except.error (PyExc.dynamoUnavailableError
            ("DynamoDB unavailable for table state-table: net down")),
          [], [Ev.assert_available_ev]⟩ :=
  ⟨by decide, fail_safe_gate wcfg gate_fail_cenv [] true _ (by decide)⟩

/-- Counterexample to claim C5 as stated: a dry-run cycle against a missing
destination folder with `create_target_folder` set still issues the folder
CREATE — a destination-mailbox mutation. -/
theorem dry_run_purity_counterexample :
    Ev.folder_create_ev ("Archive") ∈ (run_once c5cfg c5cenv [] true).trace := by
  decide

/-- Witness for `run_route_watermark_policy`: prior watermark 100, candidates
101-103, append of 102 fails. -/
theorem run_route_watermark_policy_witness :
    ((run_route wcfg wenv wstore wroute false).result
        = Except.ok ⟨wroute.route_id, "partial_failure", 2, 0, 1,
            "copied=2, skipped_duplicates=0, failed=1"⟩)
    ∧ ∃ cv, wenv.uidvalidity = Except.ok cv
        ∧ watermark_writes (run_route wcfg wenv wstore wroute false).trace
            = [(route_pk_of wroute, cv,
                spec_new_last_uid (get_watermark wstore (route_pk_of wroute)).last_uid
                  (fetched_uids (run_route wcfg wenv wstore wroute false).trace)
                  (failure_uids (run_route wcfg wenv wstore wroute false).trace))]
        ∧ (get_watermark wstore (route_pk_of wroute)).last_uid
            ≤ spec_new_last_uid (get_watermark wstore (route_pk_of wroute)).last_uid
                (fetched_uids (run_route wcfg wenv wstore wroute false).trace)
                (failure_uids (run_route wcfg wenv wstore wroute false).trace) :=
  ⟨by decide,
   run_route_watermark_policy wcfg wenv wstore wroute
     ⟨wroute.route_id, "partial_failure", 2, 0, 1,
       "copied=2, skipped_duplicates=0, failed=1"⟩ (by decide)⟩

/-- Counterexample to claim C3 as stated: in a resync cycle (uidvalidity
100 → 200) with prior `last_uid = 50`, the single candidate UID 10 fails to
append, yet the cycle writes `last_uid = 50 = max(50, 10 − 1)`, which is not
strictly below `min(F) = 10`. -/
theorem replay_preservation_counterexample :
    (run_route wcfg c3env c3store wroute false).result
        = Except.ok ⟨wroute.route_id, "partial_failure", 0, 0, 1,
            "copied=0, skipped_duplicates=0, failed=1"⟩
    ∧ failure_uids (run_route wcfg c3env c3store wroute false).trace = [10]
    ∧ watermark_writes (run_route wcfg c3env c3store wroute false).trace
        = [(route_pk_of wroute, 200, 50)]
    ∧ ¬((50 : Int) < py_min_int [10]) :=
  ⟨by decide, by decide, by decide, by decide⟩

/-- Witness for `replay_preservation_amended` on the partial-failure run. -/
theorem replay_preservation_amended_witness :
    ((run_route wcfg wenv wstore wroute false).result
        = Except.ok ⟨wroute.route_id, "partial_failure", 2, 0, 1,
            "copied=2, skipped_duplicates=0, failed=1"⟩)
    ∧ (∀ u ∈ failure_uids (run_route wcfg wenv wstore wroute false).trace,
        (get_watermark wstore (route_pk_of wroute)).last_uid < u)
    ∧ failure_uids (run_route wcfg wenv wstore wroute false).trace ≠ []
    ∧ ∃ cv lu, wenv.uidvalidity = Except.ok cv
        ∧ watermark_writes (run_route wcfg wenv wstore wroute false).trace
            = [(route_pk_of wroute, cv, lu)]
        ∧ lu < py_min_int (failure_uids (run_route wcfg wenv wstore wroute false).trace) :=
  ⟨by decide, by decide, by decide,
   replay_preservation_amended wcfg wenv wstore wroute
     ⟨wroute.route_id, "partial_failure", 2, 0, 1,
       "copied=2, skipped_duplicates=0, failed=1"⟩
     (by decide) (by decide) (by decide)⟩

/-- Witness for `per_uid_failure_containment` on candidates 101-103 with the
append of 102 failing. -/
theorem per_uid_failure_containment_witness :
    ((∀ u ∈ [(101 : Int), 102, 103], (wenv.fetch u).isOk = true))
    ∧ ((run_uid_loop wcfg wenv wroute wpk 300 false false [101, 102, 103] c6init).2 = none
      ∧ ((run_uid_loop wcfg wenv wroute wpk 300 false false [101, 102, 103] c6init).1).processed_uids
          = c6init.processed_uids ++ [101, 102, 103]
      ∧ (∀ u, Ev.claim_ev wpk 300 u true
            ∈ ((run_uid_loop wcfg wenv wroute wpk 300 false false [101, 102, 103] c6init).1).trace →
          (wenv.append_result u).isOk = false →
          Ev.abandon_ev wpk 300 u
              ∈ ((run_uid_loop wcfg wenv wroute wpk 300 false false [101, 102, 103] c6init).1).trace
            ∧ Ev.record_failure_ev wpk 300 u
              ∈ ((run_uid_loop wcfg wenv wroute wpk 300 false false [101, 102, 103] c6init).1).trace)
      ∧ ∃ δ, ((run_uid_loop wcfg wenv wroute wpk 300 false false [101, 102, 103] c6init).1).failed_uids
            = c6init.failed_uids ++ δ
          ∧ ((run_uid_loop wcfg wenv wroute wpk 300 false false [101, 102, 103] c6init).1).failed
            = c6init.failed + δ.length
          ∧ ∀ u ∈ δ, (wenv.append_result u).isOk = false) :=
  ⟨by decide,
   per_uid_failure_containment wcfg wenv wroute wpk 300 false [101, 102, 103] c6init
     (by decide) (fun _ hu _ => absurd hu (List.not_mem_nil _))⟩

/-- Witness for `dry_run_result_shape` on a dry run over candidates
101-103. -/
theorem dry_run_result_shape_witness :
    ((run_route wcfg wenv wstore wroute true).result
        = Except.ok ⟨wroute.route_id, "ok", 0, 0, 0,
            "copied=0, skipped_duplicates=0, failed=0"⟩)
    ∧ ((⟨wroute.route_id, "ok", 0, 0, 0,
          "copied=0, skipped_duplicates=0, failed=0"⟩ : RouteRunResult).copied = 0
      ∧ (⟨wroute.route_id, "ok", 0, 0, 0,
          "copied=0, skipped_duplicates=0, failed=0"⟩ : RouteRunResult).failed = 0
      ∧ (⟨wroute.route_id, "ok", 0, 0, 0,
          "copied=0, skipped_duplicates=0, failed=0"⟩ : RouteRunResult).status = "ok"
      ∧ ∃ cv cands, wenv.uidvalidity = Except.ok cv
          ∧ route_candidates wenv (get_watermark wstore (route_pk_of wroute)) cv
              = Except.ok cands
          ∧ (⟨wroute.route_id, "ok", 0, 0, 0,
              "copied=0, skipped_duplicates=0, failed=0"⟩ : RouteRunResult).skipped_duplicates
              = cands.countP (dry_run_gate wenv wstore (route_pk_of wroute) cv
                  (uidvalidity_changed (get_watermark wstore (route_pk_of wroute)) cv))) :=
  ⟨by decide,
   dry_run_result_shape wcfg wenv wstore wroute
     ⟨wroute.route_id, "ok", 0, 0, 0, "copied=0, skipped_duplicates=0, failed=0"⟩
     (by decide)⟩

end MailSync
